import Mathlib

set_option linter.unusedVariables false

/-!
Verification of `smact/data_loader.py` (SMACT): a shallow embedding of the
module's lazily-cached per-element dataset lookups, and proofs about it.

Modelling conventions:
  * Python module globals (`_PrintWarnings` and the ten dataset caches) become
    the fields of `Smact.DLState`; every lookup function takes and returns a
    state, together with the list of warning lines it prints and either a
    result (`Except.ok`) or the exception it raises (`Except.error`).
    Python mutates globals as it executes, so a failing call still returns
    the mutated state alongside its error.
  * The data directory becomes `Smact.FS`: each backing file is either absent
    (`none`, so `open` raises an IOError) or present with its contents.
    Plain-text files are lists of lines; CSV files are lists of rows already
    split into fields (the `csv` module is external to the repository).
  * Python `float` values are modelled as exact rationals (`Rat`); `float(s)`
    is modelled for plain decimal notation (optional sign, digits, one dot),
    which covers every literal the module compares against and the format of
    the data files.  `int(s)` is an optional sign and digits.
  * Python dicts preserve insertion order and update in place; `PyDict` is an
    association list with exactly those semantics (`dictSet`).
  * Object identity (the `copy` flag of four lookups) is modelled in a
    separate heap-based refinement of the return path of those lookups, where
    the cache maps symbols to heap addresses.
-/

namespace Smact

/-- The Python exceptions the module can raise while loading:
`IOError` (missing file), `IndexError` (a row or line with too few fields),
`ValueError` (`int`/`float` applied to a non-numeric field), `TypeError`
(item assignment on `None`, as in the s-eigenvalue loader), and
`StopIteration` (`next(reader)` on an empty CSV file). -/
inductive PyError where
  | ioError
  | indexError
  | valueError
  | typeError
  | stopIteration
deriving DecidableEq, Repr

deriving instance DecidableEq for Except

/-- The whitespace characters of Python's `str.strip()` and `str.split()`
(space, tab, newline, carriage return, vertical tab, form feed). -/
def isPyWS (c : Char) : Bool :=
  c = ' ' ∨ c = '\t' ∨ c = '\n' ∨ c = '\r' ∨ c = '\x0b' ∨ c = '\x0c'

/-- Drop leading whitespace characters. -/
def dropWS : List Char → List Char
  | [] => []
  | c :: rest => if isPyWS c then dropWS rest else c :: rest

/-- Python `str.strip()`: remove leading and trailing whitespace. -/
def stripChars (l : List Char) : List Char :=
  ((dropWS ((dropWS l).reverse)).reverse)

/-- Python `line.strip()` on a `String`. -/
def pyStrip (s : String) : List Char :=
  stripChars s.data

/-- Helper for `pySplit`: `cur` is the (reversed) token being read. -/
def splitWSAux : List Char → List Char → List (List Char)
  | [], [] => []
  | [], cur => [cur.reverse]
  | c :: rest, cur =>
      if isPyWS c then
        match cur with
        | [] => splitWSAux rest []
        | _ => cur.reverse :: splitWSAux rest []
      else splitWSAux rest (c :: cur)

/-- Python `str.split()` with no argument: split on runs of whitespace,
discarding empty tokens. -/
def pySplit (l : List Char) : List String :=
  (splitWSAux l []).map String.mk

/-- Whether every character of the list is a decimal digit. -/
def allDigits : List Char → Bool
  | [] => true
  | c :: rest => c.isDigit && allDigits rest

/-- The number denoted by a digit string (0 for the empty string). -/
def natOfDigits : List Char → Nat → Nat
  | [], acc => acc
  | c :: rest, acc => natOfDigits rest (acc * 10 + (c.toNat - 48))

/-- Nonempty all-digit strings denote a natural number. -/
def digitsVal (l : List Char) : Option Nat :=
  match l with
  | [] => none
  | _ => if allDigits l then some (natOfDigits l 0) else none

/-- Python `int(s)`: optional surrounding whitespace, optional sign, digits.
`none` models a `ValueError`. -/
def pyInt (s : String) : Option Int :=
  match stripChars s.data with
  | '-' :: rest => (digitsVal rest).map (fun n => -(n : Int))
  | '+' :: rest => (digitsVal rest).map (fun n => (n : Int))
  | rest => (digitsVal rest).map (fun n => (n : Int))

/-- The unsigned part of `float(s)`: digits, or digits with one decimal dot
(either side of the dot may be empty, but not both). -/
def splitAtDot : List Char → List Char × Option (List Char)
  | [] => ([], none)
  | '.' :: rest => ([], some rest)
  | c :: rest =>
      let t := splitAtDot rest
      (c :: t.1, t.2)

/-- The rational value of an unsigned decimal literal, `none` on a malformed
one. -/
def decimalVal (l : List Char) : Option Rat :=
  match splitAtDot l with
  | (ip, none) =>
      match ip with
      | [] => none
      | _ => if allDigits ip then some ((natOfDigits ip 0 : Int) : Rat) else none
  | (ip, some fp) =>
      match ip, fp with
      | [], [] => none
      | _, _ =>
          if allDigits ip && allDigits fp then
            some (mkRat ((natOfDigits ip 0) * 10 ^ fp.length + natOfDigits fp 0) (10 ^ fp.length))
          else none

/-- Python `float(s)` for plain decimal notation: optional surrounding
whitespace, optional sign, digits with at most one dot.  `none` models a
`ValueError`.  (The exponent, `inf` and `nan` forms never occur in the data
files or in the module's comparisons.) -/
def pyFloat (s : String) : Option Rat :=
  match stripChars s.data with
  | '-' :: rest => (decimalVal rest).map (fun q => -q)
  | '+' :: rest => decimalVal rest
  | rest => decimalVal rest

/-- A Python dict with `String` keys: an insertion-ordered association list
with no repeated keys (when built from `[]` by `dictSet`). -/
abbrev PyDict (α : Type) := List (String × α)

/-- Python `d[k]` / `k in d`. -/
def dictGet {α : Type} : PyDict α → String → Option α
  | [], _ => none
  | (k₂, v) :: rest, k => if k₂ = k then some v else dictGet rest k

/-- Python `d[k] = v`: update in place if the key exists (keeping its
position), otherwise append at the end (insertion order). -/
def dictSet {α : Type} : PyDict α → String → α → PyDict α
  | [], k, v => [(k, v)]
  | (k₂, w) :: rest, k, v =>
      if k₂ = k then (k, v) :: rest else (k₂, w) :: dictSet rest k v

/-- The record built per line of `element.txt` (Open Babel-derived data),
keyed with the column headings; the Python key `'ElNeg.'` is the field
`ElNeg`. -/
structure OBRecord where
  Number : Int
  ARENeg : Rat
  RCov : Rat
  RBO : Rat
  RVdW : Rat
  MaxBnd : Int
  Mass : Rat
  ElNeg : Rat
  Ionization : Rat
  ElAffinity : Rat
  RGB : Rat × Rat × Rat
  Name : String
deriving DecidableEq, Repr

/-- The record built per row of `shannon_radii.csv`. -/
structure ShannonRecord where
  charge : Int
  coordination : String
  crystal_radius : Rat
  ionic_radius : Rat
  comment : String
deriving DecidableEq, Repr

/-- The record built per row of `SSE.csv`. -/
structure SSERecord where
  AtomicNumber : Int
  SolidStateEnergy : Rat
  IonisationPotential : Rat
  ElectronAffinity : Rat
  MullikenElectronegativity : Rat
  SolidStateRenormalisationEnergy : Rat
deriving DecidableEq, Repr

/-- The record built per row of `SSE_2015.csv`. -/
structure SSE2015Record where
  OxidationState : Int
  SolidStateEnergy2015 : Rat
deriving DecidableEq, Repr

/-- The record built per row of `SSE_Pauling.csv`. -/
structure SSEPaulingRecord where
  SolidStateEnergyPauling : Rat
deriving DecidableEq, Repr

/-- The data directory: each backing file is absent (`none`: `open` raises)
or present.  Plain-text files are lists of lines, CSV files lists of rows
already split into fields. -/
structure FS where
  oxidationStatesTxt : Option (List String)
  crustalAbundanceTxt : Option (List String)
  hhisTxt : Option (List String)
  elementTxt : Option (List String)
  eigenvaluesCsv : Option (List (List String))
  eigenvaluesSCsv : Option (List (List String))
  shannonRadiiCsv : Option (List (List String))
  sseCsv : Option (List (List String))
  sse2015Csv : Option (List (List String))
  ssePaulingCsv : Option (List (List String))
deriving DecidableEq, Repr

/-- A data directory with every file missing, for building concrete examples. -/
def emptyFS : FS :=
  ⟨none, none, none, none, none, none, none, none, none, none⟩

/-- The module's global state: the warning switch `_PrintWarnings` and the ten
dataset caches, each `none` until its loader has run (Python initialises every
cache variable to `None`). -/
structure DLState where
  PrintWarnings : Bool
  ElementOxidationStates : Option (PyDict (List Int))
  ElementCrustalAbundances : Option (PyDict Rat)
  ElementHHIs : Option (PyDict (Rat × Rat))
  ElementOpenBabelDerivedData : Option (PyDict OBRecord)
  ElementEigenvalues : Option (PyDict Rat)
  ElementSEigenvalues : Option (PyDict Rat)
  ElementShannonRadiiData : Option (PyDict (List ShannonRecord))
  ElementSSEData : Option (PyDict SSERecord)
  ElementSSE2015Data : Option (PyDict (List SSE2015Record))
  ElementSSEPaulingData : Option (PyDict SSEPaulingRecord)
deriving DecidableEq, Repr

/-- The state at import time: warnings off, every cache `None`. -/
def initialState : DLState :=
  ⟨false, none, none, none, none, none, none, none, none, none, none⟩

/-- The module's `ToggleWarnings(enable)`: set the global flag. -/
def ToggleWarnings (σ : DLState) (enable : Bool) : DLState :=
  { σ with PrintWarnings := enable }

/-! ## Warning messages (the exact strings the module prints) -/

def oxNotFoundMsg (s : String) : String :=
  "WARNING: Oxidation states for element " ++ s ++ " not found."

def crustalNotFoundMsg (s : String) : String :=
  "WARNING: Crustal-abundance data for element " ++ s ++ " not found."

def hhiNotFoundMsg (s : String) : String :=
  "WARNING: HHI data for element " ++ s ++ " not found."

def obNotFoundMsg (s : String) : String :=
  "WARNING: Open Babel-derived element data for " ++ s ++ " not found."

def eigNotFoundMsg (s : String) : String :=
  "WARNING: Eigenvalue data for element " ++ s ++ " not found."

def sEigNotFoundMsg (s : String) : String :=
  "WARNING: s-eigenvalue data for element " ++ s ++ " not found."

def shannonNotFoundMsg (s : String) : String :=
  "WARNING: Shannon-radius data for element " ++ s ++ " not found."

def sseNotFoundMsg (s : String) : String :=
  "WARNING: Solid-state energy data for element " ++ s ++ " not found."

def sse2015NotFoundMsg (s : String) : String :=
  "WARNING: Solid-state energy (revised 2015) data for element " ++ s ++ " not found."

def ssePaulingNotFoundMsg (s : String) : String :=
  "WARNING: Solid-state energy data from Pauling electronegativity regression fit for element "
    ++ s ++ " not found."

def obRCovMsg (key : String) : String :=
  "WARNING: Covalent radius for element " ++ key
    ++ " may be set to the default value of 1.6 in the Open Babel-derived data."

def obElNegMsg (key : String) : String :=
  "WARNING: Pauling electronegativity for " ++ key
    ++ " may be set to the default of zero in the Open Babel-derived data."

def obIonizationMsg (key : String) : String :=
  "WARNING: Ionisation potential for " ++ key
    ++ " may be set to the default of zero in the Open Babel-derived data."

def obElAffinityMsg (key : String) : String :=
  "WARNING: Electron affinity for " ++ key
    ++ " may be set to the default of zero in the Open Babel-derived data."

/-! ## Field access and parsing helpers -/

/-- Python `items[i]` on a list of fields: `IndexError` when out of range. -/
def itemStr (items : List String) (i : Nat) : Except PyError String :=
  match items.get? i with
  | some s => Except.ok s
  | none => Except.error PyError.indexError

/-- Python `int(items[i])`. -/
def itemInt (items : List String) (i : Nat) : Except PyError Int :=
  match items.get? i with
  | some s =>
      match pyInt s with
      | some n => Except.ok n
      | none => Except.error PyError.valueError
  | none => Except.error PyError.indexError

/-- Python `float(items[i])`. -/
def itemFloat (items : List String) (i : Nat) : Except PyError Rat :=
  match items.get? i with
  | some s =>
      match pyFloat s with
      | some q => Except.ok q
      | none => Except.error PyError.valueError
  | none => Except.error PyError.indexError

/-! ## Per-dataset row parsers

Each parser models one iteration of the corresponding `for` loop in
`data_loader.py`: `Except.error` is the exception that iteration raises,
`Except.ok none` a skipped comment line, `Except.ok (some (key, value))` the
assignment the iteration makes. -/

/-- One line of `oxidation_states.txt`:
strip, skip `#` comments (an empty line raises `IndexError` at `line[0]`),
split on whitespace, key `items[0]`, value the `int`s of the remaining
fields. -/
def parseOxLine (line : String) : Except PyError (Option (String × List Int)) :=
  match pyStrip line with
  | [] => Except.error PyError.indexError
  | c :: rest =>
      if c = '#' then Except.ok none
      else
        match pySplit (c :: rest) with
        | [] => Except.error PyError.indexError
        | sym :: fields =>
            match fields.mapM pyInt with
            | some ns => Except.ok (some (sym, ns))
            | none => Except.error PyError.valueError

/-- One line of `crustal_abundance.txt`: key `items[0]`, value
`float(items[1])`. -/
def parseCrustalLine (line : String) : Except PyError (Option (String × Rat)) :=
  match pyStrip line with
  | [] => Except.error PyError.indexError
  | c :: rest =>
      if c = '#' then Except.ok none
      else
        let items := pySplit (c :: rest)
        match itemStr items 0, itemFloat items 1 with
        | Except.ok sym, Except.ok v => Except.ok (some (sym, v))
        | Except.ok _, Except.error e => Except.error e
        | Except.error e, _ => Except.error e

/-- One line of `HHIs.txt`: key `items[0]`, value
`(float(items[1]), float(items[2]))`. -/
def parseHHILine (line : String) : Except PyError (Option (String × (Rat × Rat))) :=
  match pyStrip line with
  | [] => Except.error PyError.indexError
  | c :: rest =>
      if c = '#' then Except.ok none
      else
        let items := pySplit (c :: rest)
        match itemStr items 0, itemFloat items 1, itemFloat items 2 with
        | Except.ok sym, Except.ok p, Except.ok r => Except.ok (some (sym, (p, r)))
        | Except.ok _, Except.ok _, Except.error e => Except.error e
        | Except.ok _, Except.error e, _ => Except.error e
        | Except.error e, _, _ => Except.error e

/-- The sentinel warnings one `element.txt` line prints, in program order:
covalent radius `1.6`, then Pauling electronegativity, ionisation potential
and electron affinity equal to `0.0` (each only when `_PrintWarnings` is on;
the messages name the line's own element `key`).  The guards in the source
test the freshly parsed locals, which are exactly the record's fields. -/
def obWarnings (pw : Bool) (key : String) (r : OBRecord) : List String :=
  (if pw ∧ r.RCov = mkRat 8 5 then [obRCovMsg key] else [])
    ++ (if pw ∧ r.ElNeg = 0 then [obElNegMsg key] else [])
    ++ (if pw ∧ r.Ionization = 0 then [obIonizationMsg key] else [])
    ++ (if pw ∧ r.ElAffinity = 0 then [obElAffinityMsg key] else [])

/-- The fields of one `element.txt` line: the key is `items[1]` (the first
token is the atomic number), the record collects `items[0]` to `items[14]`. -/
def parseOBItems (items : List String) : Except PyError (String × OBRecord) := do
  let key ← itemStr items 1
  let number ← itemInt items 0
  let areNeg ← itemFloat items 2
  let rCov ← itemFloat items 3
  let rbo ← itemFloat items 4
  let rVDW ← itemFloat items 5
  let maxBnd ← itemInt items 6
  let mass ← itemFloat items 7
  let elNeg ← itemFloat items 8
  let ionization ← itemFloat items 9
  let elAffinity ← itemFloat items 10
  let r ← itemFloat items 11
  let g ← itemFloat items 12
  let b ← itemFloat items 13
  let name ← itemStr items 14
  Except.ok (key, ⟨number, areNeg, rCov, rbo, rVDW, maxBnd, mass, elNeg,
    ionization, elAffinity, (r, g, b), name⟩)

/-- One line of `element.txt`: strip, skip `#` comments, split, parse the
fifteen fields and compute the line's sentinel warnings. -/
def parseOBLine (pw : Bool) (line : String) :
    Except PyError (Option (String × OBRecord × List String)) :=
  match pyStrip line with
  | [] => Except.error PyError.indexError
  | c :: rest =>
      if c = '#' then Except.ok none
      else
        match parseOBItems (pySplit (c :: rest)) with
        | Except.error e => Except.error e
        | Except.ok (key, r) => Except.ok (some (key, r, obWarnings pw key r))

/-- One data row of `Eigenvalues.csv` or `Eigenvalues_s.csv`: key `row[0]`,
value `float(row[1])`. -/
def parseEigRow (row : List String) : Except PyError (String × Rat) :=
  match itemStr row 0, itemFloat row 1 with
  | Except.ok k, Except.ok v => Except.ok (k, v)
  | Except.ok _, Except.error e => Except.error e
  | Except.error e, _ => Except.error e

/-- One data row of `shannon_radii.csv`. -/
def parseShannonRow (row : List String) : Except PyError (String × ShannonRecord) := do
  let key ← itemStr row 0
  let charge ← itemInt row 1
  let coordination ← itemStr row 2
  let crystal ← itemFloat row 3
  let ionic ← itemFloat row 4
  let note ← itemStr row 5
  Except.ok (key, ⟨charge, coordination, crystal, ionic, note⟩)

/-- One row of `SSE.csv` (no header row). -/
def parseSSERow (row : List String) : Except PyError (String × SSERecord) := do
  let key ← itemStr row 0
  let n ← itemInt row 1
  let sse ← itemFloat row 2
  let ip ← itemFloat row 3
  let ea ← itemFloat row 4
  let mu ← itemFloat row 5
  let ren ← itemFloat row 6
  Except.ok (key, ⟨n, sse, ip, ea, mu, ren⟩)

/-- One row of `SSE_2015.csv` (no header row). -/
def parseSSE2015Row (row : List String) : Except PyError (String × SSE2015Record) := do
  let key ← itemStr row 0
  let ox ← itemInt row 1
  let sse ← itemFloat row 2
  Except.ok (key, ⟨ox, sse⟩)

/-- One row of `SSE_Pauling.csv` (no header row). -/
def parseSSEPaulingRow (row : List String) : Except PyError (String × SSEPaulingRecord) := do
  let key ← itemStr row 0
  let v ← itemFloat row 1
  Except.ok (key, ⟨v⟩)

/-- Lift a CSV row parser (which never skips a row) to the shape `runLoad`
expects. -/
def csvRow {ρ : Type} (parse : List String → Except PyError (String × ρ))
    (row : List String) : Except PyError (Option (String × ρ)) :=
  match parse row with
  | Except.error e => Except.error e
  | Except.ok kv => Except.ok (some kv)

/-! ## The load loop -/

/-- The loader loop shared by nine datasets: process the rows in order,
performing one `step` (a dict assignment) per parsed row, skipping comment
rows, and stopping at the first exception.  Like the Python loop, it returns
the dict as mutated so far together with the loop's outcome. -/
def runLoad {τ ρ β : Type} (step : PyDict β → String → ρ → PyDict β)
    (parse : τ → Except PyError (Option (String × ρ))) :
    List τ → PyDict β → PyDict β × Except PyError Unit
  | [], d => (d, Except.ok ())
  | row :: rest, d =>
      match parse row with
      | Except.error e => (d, Except.error e)
      | Except.ok none => runLoad step parse rest d
      | Except.ok (some (k, v)) => runLoad step parse rest (step d k v)

/-- The assignment of the single-record datasets: `d[k] = v` (a repeated
symbol overwrites, last occurrence wins). -/
def singleStep {β : Type} (d : PyDict β) (k : String) (v : β) : PyDict β :=
  dictSet d k v

/-- The assignment of the multi-record datasets (Shannon radii, SSE-2015):
append to the key's list if it exists, else start a one-element list. -/
def multiStep {ρ : Type} (d : PyDict (List ρ)) (k : String) (v : ρ) : PyDict (List ρ) :=
  match dictGet d k with
  | some l => dictSet d k (l ++ [v])
  | none => dictSet d k [v]

/-- The Open Babel loader loop (the one loop that also prints while loading):
returns the dict, the printed warning lines in order, and the outcome. -/
def runLoadOB (pw : Bool) : List String → PyDict OBRecord →
    PyDict OBRecord × List String × Except PyError Unit
  | [], d => (d, [], Except.ok ())
  | line :: rest, d =>
      match parseOBLine pw line with
      | Except.error e => (d, [], Except.error e)
      | Except.ok none => runLoadOB pw rest d
      | Except.ok (some (k, r, ws)) =>
          let t := runLoadOB pw rest (dictSet d k r)
          (t.1, ws ++ t.2.1, t.2.2)

/-! ## The lookup functions

Each function mirrors its namesake in `data_loader.py`: look in the cache if
it is loaded, otherwise set the cache to an empty dict, read and parse the
backing file into it, and then look the symbol up, printing the dataset's
not-found warning when `_PrintWarnings` is on.  The returned triple is
(module state after the call, lines printed, result or exception).

The `copy` flag changes only which *object* is returned, never its value, so
it does not appear in these value-level definitions; object identity is
modelled by the heap refinement further down.  On a line that raises an
exception halfway through, warnings that line had already printed are not
modelled (no claim concerns them). -/

/-- The not-found branch's output: the warning when the switch is on. -/
def warnOut (pw : Bool) (msg : String) : List String :=
  if pw then [msg] else []

/-- The lookup phase shared by all ten functions, over a loaded dict. -/
def finishLookup {β : Type} (pw : Bool) (m : PyDict β) (msg : String) (symbol : String) :
    List String × Except PyError (Option β) :=
  match dictGet m symbol with
  | some v => ([], Except.ok (some v))
  | none => (warnOut pw msg, Except.ok none)

/-- `LookupElementOxidationStates(symbol, copy)` over `oxidation_states.txt`. -/
def LookupElementOxidationStates (σ : DLState) (fs : FS) (symbol : String) (copy : Bool) :
    DLState × List String × Except PyError (Option (List Int)) :=
  match σ.ElementOxidationStates with
  | some m => (σ, finishLookup σ.PrintWarnings m (oxNotFoundMsg symbol) symbol)
  | none =>
      match fs.oxidationStatesTxt with
      | none => ({ σ with ElementOxidationStates := some [] }, [], Except.error PyError.ioError)
      | some lines =>
          let p := runLoad singleStep parseOxLine lines []
          let σ₂ := { σ with ElementOxidationStates := some p.1 }
          match p.2 with
          | Except.error e => (σ₂, [], Except.error e)
          | Except.ok _ => (σ₂, finishLookup σ.PrintWarnings p.1 (oxNotFoundMsg symbol) symbol)

/-- `LookupElementCrustalAbundance(symbol)` over `crustal_abundance.txt`. -/
def LookupElementCrustalAbundance (σ : DLState) (fs : FS) (symbol : String) :
    DLState × List String × Except PyError (Option Rat) :=
  match σ.ElementCrustalAbundances with
  | some m => (σ, finishLookup σ.PrintWarnings m (crustalNotFoundMsg symbol) symbol)
  | none =>
      match fs.crustalAbundanceTxt with
      | none => ({ σ with ElementCrustalAbundances := some [] }, [], Except.error PyError.ioError)
      | some lines =>
          let p := runLoad singleStep parseCrustalLine lines []
          let σ₂ := { σ with ElementCrustalAbundances := some p.1 }
          match p.2 with
          | Except.error e => (σ₂, [], Except.error e)
          | Except.ok _ =>
              (σ₂, finishLookup σ.PrintWarnings p.1 (crustalNotFoundMsg symbol) symbol)

/-- `LookupElementHHIs(symbol)` over `HHIs.txt`. -/
def LookupElementHHIs (σ : DLState) (fs : FS) (symbol : String) :
    DLState × List String × Except PyError (Option (Rat × Rat)) :=
  match σ.ElementHHIs with
  | some m => (σ, finishLookup σ.PrintWarnings m (hhiNotFoundMsg symbol) symbol)
  | none =>
      match fs.hhisTxt with
      | none => ({ σ with ElementHHIs := some [] }, [], Except.error PyError.ioError)
      | some lines =>
          let p := runLoad singleStep parseHHILine lines []
          let σ₂ := { σ with ElementHHIs := some p.1 }
          match p.2 with
          | Except.error e => (σ₂, [], Except.error e)
          | Except.ok _ => (σ₂, finishLookup σ.PrintWarnings p.1 (hhiNotFoundMsg symbol) symbol)

/-- `LookupElementOpenBabelDerivedData(symbol, copy)` over `element.txt`;
loading also prints the sentinel warnings of each line, in file order. -/
def LookupElementOpenBabelDerivedData (σ : DLState) (fs : FS) (symbol : String) (copy : Bool) :
    DLState × List String × Except PyError (Option OBRecord) :=
  match σ.ElementOpenBabelDerivedData with
  | some m => (σ, finishLookup σ.PrintWarnings m (obNotFoundMsg symbol) symbol)
  | none =>
      match fs.elementTxt with
      | none =>
          ({ σ with ElementOpenBabelDerivedData := some [] }, [], Except.error PyError.ioError)
      | some lines =>
          let t := runLoadOB σ.PrintWarnings lines []
          let σ₂ := { σ with ElementOpenBabelDerivedData := some t.1 }
          match t.2.2 with
          | Except.error e => (σ₂, t.2.1, Except.error e)
          | Except.ok _ =>
              let f := finishLookup σ.PrintWarnings t.1 (obNotFoundMsg symbol) symbol
              (σ₂, t.2.1 ++ f.1, f.2)

/-- `LookupElementEigenvalue(symbol)` over `Eigenvalues.csv` (header row
skipped by `next(reader)`, which raises `StopIteration` on an empty file). -/
def LookupElementEigenvalue (σ : DLState) (fs : FS) (symbol : String) :
    DLState × List String × Except PyError (Option Rat) :=
  match σ.ElementEigenvalues with
  | some m => (σ, finishLookup σ.PrintWarnings m (eigNotFoundMsg symbol) symbol)
  | none =>
      match fs.eigenvaluesCsv with
      | none => ({ σ with ElementEigenvalues := some [] }, [], Except.error PyError.ioError)
      | some [] =>
          ({ σ with ElementEigenvalues := some [] }, [], Except.error PyError.stopIteration)
      | some (_hdr :: dataRows) =>
          let p := runLoad singleStep (csvRow parseEigRow) dataRows []
          let σ₂ := { σ with ElementEigenvalues := some p.1 }
          match p.2 with
          | Except.error e => (σ₂, [], Except.error e)
          | Except.ok _ => (σ₂, finishLookup σ.PrintWarnings p.1 (eigNotFoundMsg symbol) symbol)

/-- The s-eigenvalue load loop when `_ElementEigenvalues` is still `None`:
each iteration executes `_ElementEigenvalues[row[0]] = float(row[1])`, whose
right-hand side is evaluated first; the item assignment on `None` then raises
`TypeError`.  With no data row the loop body never runs. -/
def sEigLoopNoneCache : List (List String) → Except PyError Unit
  | [] => Except.ok ()
  | row :: _ =>
      match parseEigRow row with
      | Except.error e => Except.error e
      | Except.ok _ => Except.error PyError.typeError

/-- `LookupElementSEigenvalue(symbol)` over `Eigenvalues_s.csv`.  The source's
load loop assigns into `_ElementEigenvalues` (not `_ElementSEigenvalues`,
which stays the empty dict it was just initialised to): with the eigenvalue
cache still `None` the first parsed row raises `TypeError`, and with it loaded
the rows are merged into the *eigenvalue* cache. -/
def LookupElementSEigenvalue (σ : DLState) (fs : FS) (symbol : String) :
    DLState × List String × Except PyError (Option Rat) :=
  match σ.ElementSEigenvalues with
  | some m => (σ, finishLookup σ.PrintWarnings m (sEigNotFoundMsg symbol) symbol)
  | none =>
      let σ₁ := { σ with ElementSEigenvalues := some [] }
      match fs.eigenvaluesSCsv with
      | none => (σ₁, [], Except.error PyError.ioError)
      | some [] => (σ₁, [], Except.error PyError.stopIteration)
      | some (_hdr :: dataRows) =>
          match σ.ElementEigenvalues with
          | none =>
              match sEigLoopNoneCache dataRows with
              | Except.error e => (σ₁, [], Except.error e)
              | Except.ok _ =>
                  (σ₁, finishLookup σ.PrintWarnings [] (sEigNotFoundMsg symbol) symbol)
          | some em =>
              let p := runLoad singleStep (csvRow parseEigRow) dataRows em
              let σ₂ := { σ₁ with ElementEigenvalues := some p.1 }
              match p.2 with
              | Except.error e => (σ₂, [], Except.error e)
              | Except.ok _ =>
                  (σ₂, finishLookup σ.PrintWarnings [] (sEigNotFoundMsg symbol) symbol)

/-- `LookupElementShannonRadiusData(symbol, copy)` over `shannon_radii.csv`
(header row skipped); a symbol's records accumulate in file order. -/
def LookupElementShannonRadiusData (σ : DLState) (fs : FS) (symbol : String) (copy : Bool) :
    DLState × List String × Except PyError (Option (List ShannonRecord)) :=
  match σ.ElementShannonRadiiData with
  | some m => (σ, finishLookup σ.PrintWarnings m (shannonNotFoundMsg symbol) symbol)
  | none =>
      match fs.shannonRadiiCsv with
      | none => ({ σ with ElementShannonRadiiData := some [] }, [], Except.error PyError.ioError)
      | some [] =>
          ({ σ with ElementShannonRadiiData := some [] }, [], Except.error PyError.stopIteration)
      | some (_hdr :: dataRows) =>
          let p := runLoad multiStep (csvRow parseShannonRow) dataRows []
          let σ₂ := { σ with ElementShannonRadiiData := some p.1 }
          match p.2 with
          | Except.error e => (σ₂, [], Except.error e)
          | Except.ok _ =>
              (σ₂, finishLookup σ.PrintWarnings p.1 (shannonNotFoundMsg symbol) symbol)

/-- `LookupElementSSEData(symbol)` over `SSE.csv` (no header row). -/
def LookupElementSSEData (σ : DLState) (fs : FS) (symbol : String) :
    DLState × List String × Except PyError (Option SSERecord) :=
  match σ.ElementSSEData with
  | some m => (σ, finishLookup σ.PrintWarnings m (sseNotFoundMsg symbol) symbol)
  | none =>
      match fs.sseCsv with
      | none => ({ σ with ElementSSEData := some [] }, [], Except.error PyError.ioError)
      | some rows =>
          let p := runLoad singleStep (csvRow parseSSERow) rows []
          let σ₂ := { σ with ElementSSEData := some p.1 }
          match p.2 with
          | Except.error e => (σ₂, [], Except.error e)
          | Except.ok _ => (σ₂, finishLookup σ.PrintWarnings p.1 (sseNotFoundMsg symbol) symbol)

/-- `LookupElementSSE2015Data(symbol, copy)` over `SSE_2015.csv` (no header
row); a symbol's records accumulate in file order. -/
def LookupElementSSE2015Data (σ : DLState) (fs : FS) (symbol : String) (copy : Bool) :
    DLState × List String × Except PyError (Option (List SSE2015Record)) :=
  match σ.ElementSSE2015Data with
  | some m => (σ, finishLookup σ.PrintWarnings m (sse2015NotFoundMsg symbol) symbol)
  | none =>
      match fs.sse2015Csv with
      | none => ({ σ with ElementSSE2015Data := some [] }, [], Except.error PyError.ioError)
      | some rows =>
          let p := runLoad multiStep (csvRow parseSSE2015Row) rows []
          let σ₂ := { σ with ElementSSE2015Data := some p.1 }
          match p.2 with
          | Except.error e => (σ₂, [], Except.error e)
          | Except.ok _ =>
              (σ₂, finishLookup σ.PrintWarnings p.1 (sse2015NotFoundMsg symbol) symbol)

/-- `LookupElementSSEPaulingData(symbol)` over `SSE_Pauling.csv` (no header
row). -/
def LookupElementSSEPaulingData (σ : DLState) (fs : FS) (symbol : String) :
    DLState × List String × Except PyError (Option SSEPaulingRecord) :=
  match σ.ElementSSEPaulingData with
  | some m => (σ, finishLookup σ.PrintWarnings m (ssePaulingNotFoundMsg symbol) symbol)
  | none =>
      match fs.ssePaulingCsv with
      | none => ({ σ with ElementSSEPaulingData := some [] }, [], Except.error PyError.ioError)
      | some rows =>
          let p := runLoad singleStep (csvRow parseSSEPaulingRow) rows []
          let σ₂ := { σ with ElementSSEPaulingData := some p.1 }
          match p.2 with
          | Except.error e => (σ₂, [], Except.error e)
          | Except.ok _ =>
              (σ₂, finishLookup σ.PrintWarnings p.1 (ssePaulingNotFoundMsg symbol) symbol)

/-! ## Heap refinement of the return path

Four lookups take a `copy` flag, and the difference between `copy=True` and
`copy=False` is pure object identity.  To state it, the return path of those
functions (their code once the cache is loaded) is modelled over an explicit
heap: a container object is a heap cell, addressed by its index, and the
cache maps each symbol to the address of its container.

The element lists of `_ElementOxidationStates` and the per-element dicts of
`_ElementOpenBabelDerivedData` hold only Python value types, so those two
caches need one level of heap (`flatRefLookup`): `copy=True` — the list
comprehension at line 82 or the `dict.copy()` at line 268 — allocates a fresh
cell holding the same value, `copy=False` returns the cached address.

`_ElementShannonRadiiData` and `_ElementSSE2015Data` store lists *of dicts*,
so they need two levels (`twoLevelRefLookup`): a dict heap `dh` of records
and a list heap `lh` whose cells hold lists of dict addresses.  `copy=True` —
`[item.copy() for item in cached]` — allocates a fresh copy of every record
and a fresh list cell pointing at those copies. -/

/-- The return path of `LookupElementOxidationStates` / `...OpenBabelDerivedData`
(lines 77-89 and 263-275) with the cached container held in heap `h`. -/
def flatRefLookup {ρ : Type} (msg : String → String) (pw : Bool) (cache : PyDict Nat)
    (h : List ρ) (dflt : ρ) (symbol : String) (copy : Bool) :
    List ρ × List String × Option Nat :=
  match dictGet cache symbol with
  | some a =>
      if copy then (h ++ [h.getD a dflt], [], some h.length)
      else (h, [], some a)
  | none => (h, warnOut pw (msg symbol), none)

/-- The return path of `LookupElementShannonRadiusData` / `...SSE2015Data`
(lines 399-411 and 498-507): `dh` is the heap of record objects, `lh` the heap
of list objects (cells of dict addresses). -/
def twoLevelRefLookup {ρ : Type} (msg : String → String) (pw : Bool) (cache : PyDict Nat)
    (dh : List ρ) (lh : List (List Nat)) (dflt : ρ) (symbol : String) (copy : Bool) :
    (List ρ × List (List Nat)) × List String × Option Nat :=
  match dictGet cache symbol with
  | some a =>
      if copy then
        let addrs := lh.getD a []
        ((dh ++ addrs.map (fun d => dh.getD d dflt),
          lh ++ [(List.range addrs.length).map (fun i => dh.length + i)]),
         [], some lh.length)
      else ((dh, lh), [], some a)
  | none => ((dh, lh), warnOut pw (msg symbol), none)

def obDefaultRecord : OBRecord :=
  ⟨0, 0, 0, 0, 0, 0, 0, 0, 0, 0, (0, 0, 0), ""⟩

def shannonDefaultRecord : ShannonRecord :=
  ⟨0, "", 0, 0, ""⟩

def sse2015DefaultRecord : SSE2015Record :=
  ⟨0, 0⟩

/-- `LookupElementOxidationStates(symbol, copy)` once loaded, over a heap of
list objects. -/
def LookupElementOxidationStatesRef (pw : Bool) (cache : PyDict Nat)
    (h : List (List Int)) (symbol : String) (copy : Bool) :
    List (List Int) × List String × Option Nat :=
  flatRefLookup oxNotFoundMsg pw cache h [] symbol copy

/-- `LookupElementOpenBabelDerivedData(symbol, copy)` once loaded, over a heap
of record objects. -/
def LookupElementOpenBabelDerivedDataRef (pw : Bool) (cache : PyDict Nat)
    (h : List OBRecord) (symbol : String) (copy : Bool) :
    List OBRecord × List String × Option Nat :=
  flatRefLookup obNotFoundMsg pw cache h obDefaultRecord symbol copy

/-- `LookupElementShannonRadiusData(symbol, copy)` once loaded, over a
two-level heap. -/
def LookupElementShannonRadiusDataRef (pw : Bool) (cache : PyDict Nat)
    (dh : List ShannonRecord) (lh : List (List Nat)) (symbol : String) (copy : Bool) :
    (List ShannonRecord × List (List Nat)) × List String × Option Nat :=
  twoLevelRefLookup shannonNotFoundMsg pw cache dh lh shannonDefaultRecord symbol copy

/-- `LookupElementSSE2015Data(symbol, copy)` once loaded, over a two-level
heap. -/
def LookupElementSSE2015DataRef (pw : Bool) (cache : PyDict Nat)
    (dh : List SSE2015Record) (lh : List (List Nat)) (symbol : String) (copy : Bool) :
    (List SSE2015Record × List (List Nat)) × List String × Option Nat :=
  twoLevelRefLookup sse2015NotFoundMsg pw cache dh lh sse2015DefaultRecord symbol copy

/-- The value of a returned flat container: dereference its address. -/
def refValue {ρ : Type} (h : List ρ) (r : Option Nat) : Option ρ :=
  r.bind (fun a => h[a]?)

/-- The value of a returned list-of-records container: dereference the list
cell, then each record address. -/
def listRefValue {ρ : Type} (dflt : ρ) (dh : List ρ) (lh : List (List Nat))
    (r : Option Nat) : Option (List ρ) :=
  r.bind (fun a => (lh[a]?).map (fun addrs => addrs.map (fun d => dh.getD d dflt)))

/-! ## Derived observations on files -/

/-- The symbols a file's rows assign (column 0, or the second token for
`element.txt`), read off the rows that parse as data rows.  When the load
succeeds every row parses, so this is exactly the file's symbol column. -/
def rowSymbols {τ ρ : Type} (parse : τ → Except PyError (Option (String × ρ)))
    (rows : List τ) : List String :=
  rows.filterMap (fun row =>
    match parse row with
    | Except.ok (some (k, _)) => some k
    | _ => none)

/-- What a multi-record dict holds at a key after appending records `l` to the
prior contents `o` of that key. -/
def combineRecords {ρ : Type} (o : Option (List ρ)) (l : List ρ) : Option (List ρ) :=
  match o, l with
  | o, [] => o
  | none, l => some l
  | some l₀, l => some (l₀ ++ l)

/-- The records the data rows hold for symbol `s`, in file order. -/
def recordsFor {τ ρ : Type} (parse : τ → Except PyError (Option (String × ρ)))
    (rows : List τ) (s : String) : List ρ :=
  rows.filterMap (fun row =>
    match parse row with
    | Except.ok (some (k, v)) => if k = s then some v else none
    | _ => none)

/-! ## Concrete scenarios (used by the closed theorems below) -/

/-- An `Eigenvalues_s.csv`: a header row and one data row for hydrogen. -/
def fsSEig : FS :=
  { emptyFS with eigenvaluesSCsv := some [["Element", "eig"], ["H", "-13.6"]] }

/-- One well-formed `element.txt` line whose covalent radius field is the
`1.6` sentinel. -/
def obLine : String :=
  "1 X 0.0 1.6 0.85 2.0 6 1.008 2.2 13.6 0.75 1.0 1.0 1.0 Xel"

def fsOB : FS :=
  { emptyFS with elementTxt := some [obLine] }

/-- The record `obLine` parses to. -/
def obRecX : OBRecord :=
  ⟨1, 0, mkRat 8 5, mkRat 17 20, 2, 6, mkRat 126 125, mkRat 11 5, mkRat 68 5,
    mkRat 3 4, (1, 1, 1), "Xel"⟩

/-- The module state after loading `fsOB` with warnings on. -/
def obLoadedState : DLState :=
  ⟨true, none, none, none, some [("X", obRecX)], none, none, none, none, none, none⟩

/-- An `SSE_2015.csv` with two rows for titanium (oxidation states 2 and 4). -/
def fsTi : FS :=
  { emptyFS with sse2015Csv := some [["Ti", "2", "1.0"], ["Ti", "4", "2.0"]] }

/-- An `oxidation_states.txt` with a comment line and an iron line. -/
def fsOxFe : FS :=
  { emptyFS with oxidationStatesTxt := some ["# comment", "Fe 2 3 6"] }

/-- A state whose oxidation-state cache is loaded with the iron entry. -/
def oxLoadedState : DLState :=
  ⟨false, some [("Fe", [2, 3, 6])], none, none, none, none, none, none, none, none, none⟩

/-! ## Lemmas about the dict model -/

theorem dictGet_dictSet_self {α : Type} :
    ∀ (d : PyDict α) (k : String) (v : α), dictGet (dictSet d k v) k = some v
  | [], k, v => by simp [dictSet, dictGet]
  | (k₂, w) :: rest, k, v => by
      by_cases h : k₂ = k
      · simp [dictSet, h, dictGet]
      · simpa [dictSet, h, dictGet] using dictGet_dictSet_self rest k v

theorem dictGet_dictSet_ne {α : Type} :
    ∀ (d : PyDict α) (k s : String) (v : α), k ≠ s →
      dictGet (dictSet d k v) s = dictGet d s
  | [], k, s, v, hne => by simp [dictSet, dictGet, hne]
  | (k₂, w) :: rest, k, s, v, hne => by
      by_cases h : k₂ = k
      · subst h
        simp [dictSet, dictGet, hne]
      · by_cases h₂ : k₂ = s
        · subst h₂
          simp [dictSet, h, dictGet]
        · simpa [dictSet, h, dictGet, h₂] using dictGet_dictSet_ne rest k s v hne

theorem multiStep_dictGet_self {ρ : Type} (d : PyDict (List ρ)) (k : String) (v : ρ) :
    dictGet (multiStep d k v) k = some ((dictGet d k).getD [] ++ [v]) := by
  unfold multiStep
  cases h : dictGet d k with
  | none => simp [dictGet_dictSet_self]
  | some l => simp [dictGet_dictSet_self]

theorem multiStep_dictGet_ne {ρ : Type} (d : PyDict (List ρ)) (k s : String) (v : ρ)
    (hne : k ≠ s) : dictGet (multiStep d k v) s = dictGet d s := by
  unfold multiStep
  cases h : dictGet d k with
  | none => simp [dictGet_dictSet_ne _ _ _ _ hne]
  | some l => simp [dictGet_dictSet_ne _ _ _ _ hne]

/-! ## Lemmas about the load loop -/

/-- A symbol assigned by some later row is among a longer file's symbols. -/
theorem mem_rowSymbols_cons {τ ρ : Type} (parse : τ → Except PyError (Option (String × ρ)))
    (row : τ) (rest : List τ) (s : String) (h : s ∈ rowSymbols parse rest) :
    s ∈ rowSymbols parse (row :: rest) := by
  unfold rowSymbols at h ⊢
  rw [List.filterMap_cons]
  split
  · exact h
  · exact List.mem_cons_of_mem _ h

/-- The symbol a row assigns is among the file's symbols. -/
theorem head_mem_rowSymbols {τ ρ : Type} (parse : τ → Except PyError (Option (String × ρ)))
    (row : τ) (rest : List τ) (k : String) (v : ρ)
    (hp : parse row = Except.ok (some (k, v))) :
    k ∈ rowSymbols parse (row :: rest) := by
  unfold rowSymbols
  rw [List.filterMap_cons]
  simp [hp]

/-- A load never touches the entry of a symbol its rows do not assign. -/
theorem runLoad_dictGet_of_not_assigned {τ ρ β : Type}
    (step : PyDict β → String → ρ → PyDict β)
    (parse : τ → Except PyError (Option (String × ρ))) (s : String)
    (hstep : ∀ d k v, k ≠ s → dictGet (step d k v) s = dictGet d s) :
    ∀ (rows : List τ) (d : PyDict β),
      s ∉ rowSymbols parse rows →
      dictGet (runLoad step parse rows d).1 s = dictGet d s
  | [], d, _ => rfl
  | row :: rest, d, hrows => by
      have hrest : s ∉ rowSymbols parse rest :=
        fun hm => hrows (mem_rowSymbols_cons parse row rest s hm)
      unfold runLoad
      cases hp : parse row with
      | error e => rfl
      | ok o =>
          cases o with
          | none => exact runLoad_dictGet_of_not_assigned step parse s hstep rest d hrest
          | some kv =>
              obtain ⟨k, v⟩ := kv
              have hk : k ≠ s := by
                intro hks
                subst hks
                exact hrows (head_mem_rowSymbols parse row rest k v hp)
              rw [runLoad_dictGet_of_not_assigned step parse s hstep rest (step d k v) hrest]
              exact hstep d k v hk

theorem combineRecords_snoc {ρ : Type} (o : Option (List ρ)) (v : ρ) (l : List ρ) :
    combineRecords (some (o.getD [] ++ [v])) l = combineRecords o (v :: l) := by
  cases o with
  | none => cases l <;> simp [combineRecords]
  | some l₀ => cases l <;> simp [combineRecords]

/-- After a successful multi-record load, each key holds its prior records
followed by the records of the file's matching rows, in file order. -/
theorem runLoad_multi_dictGet {τ ρ : Type}
    (parse : τ → Except PyError (Option (String × ρ))) (s : String) :
    ∀ (rows : List τ) (d m : PyDict (List ρ)) (u : Unit),
      runLoad multiStep parse rows d = (m, Except.ok u) →
      dictGet m s = combineRecords (dictGet d s) (recordsFor parse rows s)
  | [], d, m, u, h => by
      unfold runLoad at h
      obtain ⟨rfl, -⟩ := Prod.mk.injEq .. ▸ h
      simp [recordsFor, combineRecords]
  | row :: rest, d, m, u, h => by
      unfold runLoad at h
      cases hp : parse row with
      | error e => rw [hp] at h; exact absurd h (by simp)
      | ok o =>
          rw [hp] at h
          cases o with
          | none =>
              rw [runLoad_multi_dictGet parse s rest d m u h]
              simp [recordsFor, List.filterMap_cons, hp]
          | some kv =>
              obtain ⟨k, v⟩ := kv
              rw [runLoad_multi_dictGet parse s rest (multiStep d k v) m u h]
              by_cases hks : k = s
              · subst hks
                rw [multiStep_dictGet_self]
                rw [combineRecords_snoc]
                simp [recordsFor, List.filterMap_cons, hp]
              · rw [multiStep_dictGet_ne d k s v hks]
                simp [recordsFor, List.filterMap_cons, hp, hks]

/-- Every record parsed from an `element.txt` line carries exactly that
line's sentinel warnings. -/
theorem parseOBLine_ok_shape (pw : Bool) (line : String) (k : String) (r : OBRecord)
    (ws : List String) (h : parseOBLine pw line = Except.ok (some (k, r, ws))) :
    ws = obWarnings pw k r := by
  unfold parseOBLine at h
  split at h
  · exact absurd h (by simp)
  · split at h
    · exact absurd h (by simp)
    · split at h
      · exact absurd h (by simp)
      · simp only [Except.ok.injEq, Option.some.injEq, Prod.mk.injEq] at h
        obtain ⟨hk, hr, hw⟩ := h
        subst hk
        subst hr
        exact hw.symm

/-- If a symbol ends up in the Open Babel cache with record `r`, either it was
there before the loop, or the loop printed each of `r`'s sentinel warnings. -/
theorem runLoadOB_warning_mem (pw : Bool) :
    ∀ (rows : List String) (d : PyDict OBRecord) (sym : String) (r : OBRecord),
      dictGet (runLoadOB pw rows d).1 sym = some r →
      dictGet d sym = some r ∨ ∀ x ∈ obWarnings pw sym r, x ∈ (runLoadOB pw rows d).2.1
  | [], d, sym, r, h => Or.inl h
  | line :: rest, d, sym, r, h => by
      rw [show runLoadOB pw (line :: rest) d =
          (match parseOBLine pw line with
           | Except.error e => (d, [], Except.error e)
           | Except.ok none => runLoadOB pw rest d
           | Except.ok (some (k, r₀, ws)) =>
               let t := runLoadOB pw rest (dictSet d k r₀)
               (t.1, ws ++ t.2.1, t.2.2)) from rfl] at h ⊢
      cases hp : parseOBLine pw line with
      | error e => rw [hp] at h; exact Or.inl h
      | ok o =>
          cases o with
          | none => rw [hp] at h; exact runLoadOB_warning_mem pw rest d sym r h
          | some krw =>
              obtain ⟨k, r₀, ws⟩ := krw
              rw [hp] at h
              simp only [] at h ⊢
              have hws : ws = obWarnings pw k r₀ := parseOBLine_ok_shape pw line k r₀ ws hp
              rcases runLoadOB_warning_mem pw rest (dictSet d k r₀) sym r h with hin | hout
              · by_cases hks : k = sym
                · subst hks
                  rw [dictGet_dictSet_self] at hin
                  obtain rfl : r₀ = r := by injection hin
                  refine Or.inr (fun x hx => ?_)
                  rw [← hws] at hx
                  exact List.mem_append_left _ hx
                · rw [dictGet_dictSet_ne d k sym r₀ hks] at hin
                  exact Or.inl hin
              · exact Or.inr (fun x hx => List.mem_append_right _ (hout x hx))

/-- A load of `element.txt` never touches the entry of a symbol its lines do
not assign. -/
theorem runLoadOB_dictGet_of_not_assigned (pw : Bool) (s : String) :
    ∀ (rows : List String) (d : PyDict OBRecord),
      s ∉ rowSymbols (parseOBLine pw) rows →
      dictGet (runLoadOB pw rows d).1 s = dictGet d s
  | [], d, _ => rfl
  | line :: rest, d, hrows => by
      have hrest : s ∉ rowSymbols (parseOBLine pw) rest :=
        fun hm => hrows (mem_rowSymbols_cons (parseOBLine pw) line rest s hm)
      rw [show runLoadOB pw (line :: rest) d =
          (match parseOBLine pw line with
           | Except.error e => (d, [], Except.error e)
           | Except.ok none => runLoadOB pw rest d
           | Except.ok (some (k, r₀, ws)) =>
               let t := runLoadOB pw rest (dictSet d k r₀)
               (t.1, ws ++ t.2.1, t.2.2)) from rfl]
      cases hp : parseOBLine pw line with
      | error e => rfl
      | ok o =>
          cases o with
          | none => exact runLoadOB_dictGet_of_not_assigned pw s rest d hrest
          | some krw =>
              obtain ⟨k, r₀, ws⟩ := krw
              have hk : k ≠ s := by
                intro hks
                subst hks
                exact hrows (head_mem_rowSymbols (parseOBLine pw) line rest k (r₀, ws) hp)
              simp only
              rw [runLoadOB_dictGet_of_not_assigned pw s rest (dictSet d k r₀) hrest]
              exact dictGet_dictSet_ne d k s r₀ hk

/-! ## Per-dataset characterisations

For each lookup function, one lemma describes the call on a loaded cache
(the file is not consulted, the state does not change) and one describes the
first call (cache `None`): the cache always ends up initialised, whatever the
file's condition. -/

theorem oxLoaded (σ : DLState) (fs : FS) (sym : String) (c : Bool)
    (m : PyDict (List Int)) (h : σ.ElementOxidationStates = some m) :
    LookupElementOxidationStates σ fs sym c =
      (σ, finishLookup σ.PrintWarnings m (oxNotFoundMsg sym) sym) := by
  unfold LookupElementOxidationStates
  rw [h]

theorem oxFresh (σ : DLState) (fs : FS) (sym : String) (c : Bool)
    (h : σ.ElementOxidationStates = none) :
    LookupElementOxidationStates σ fs sym c =
      match fs.oxidationStatesTxt with
      | none => ({ σ with ElementOxidationStates := some [] }, [], Except.error PyError.ioError)
      | some lines =>
          match runLoad singleStep parseOxLine lines [] with
          | (m, Except.error e) =>
              ({ σ with ElementOxidationStates := some m }, [], Except.error e)
          | (m, Except.ok _) =>
              ({ σ with ElementOxidationStates := some m },
               finishLookup σ.PrintWarnings m (oxNotFoundMsg sym) sym) := by
  unfold LookupElementOxidationStates
  rw [h]
  cases fs.oxidationStatesTxt with
  | none => rfl
  | some lines =>
      cases hrl : runLoad singleStep parseOxLine lines [] with
      | mk m r => cases r <;> simp [hrl]

theorem crustalLoaded (σ : DLState) (fs : FS) (sym : String)
    (m : PyDict Rat) (h : σ.ElementCrustalAbundances = some m) :
    LookupElementCrustalAbundance σ fs sym =
      (σ, finishLookup σ.PrintWarnings m (crustalNotFoundMsg sym) sym) := by
  unfold LookupElementCrustalAbundance
  rw [h]

theorem crustalFresh (σ : DLState) (fs : FS) (sym : String)
    (h : σ.ElementCrustalAbundances = none) :
    LookupElementCrustalAbundance σ fs sym =
      match fs.crustalAbundanceTxt with
      | none => ({ σ with ElementCrustalAbundances := some [] }, [], Except.error PyError.ioError)
      | some lines =>
          match runLoad singleStep parseCrustalLine lines [] with
          | (m, Except.error e) =>
              ({ σ with ElementCrustalAbundances := some m }, [], Except.error e)
          | (m, Except.ok _) =>
              ({ σ with ElementCrustalAbundances := some m },
               finishLookup σ.PrintWarnings m (crustalNotFoundMsg sym) sym) := by
  unfold LookupElementCrustalAbundance
  rw [h]
  cases fs.crustalAbundanceTxt with
  | none => rfl
  | some lines =>
      cases hrl : runLoad singleStep parseCrustalLine lines [] with
      | mk m r => cases r <;> simp [hrl]

theorem hhiLoaded (σ : DLState) (fs : FS) (sym : String)
    (m : PyDict (Rat × Rat)) (h : σ.ElementHHIs = some m) :
    LookupElementHHIs σ fs sym =
      (σ, finishLookup σ.PrintWarnings m (hhiNotFoundMsg sym) sym) := by
  unfold LookupElementHHIs
  rw [h]

theorem hhiFresh (σ : DLState) (fs : FS) (sym : String)
    (h : σ.ElementHHIs = none) :
    LookupElementHHIs σ fs sym =
      match fs.hhisTxt with
      | none => ({ σ with ElementHHIs := some [] }, [], Except.error PyError.ioError)
      | some lines =>
          match runLoad singleStep parseHHILine lines [] with
          | (m, Except.error e) => ({ σ with ElementHHIs := some m }, [], Except.error e)
          | (m, Except.ok _) =>
              ({ σ with ElementHHIs := some m },
               finishLookup σ.PrintWarnings m (hhiNotFoundMsg sym) sym) := by
  unfold LookupElementHHIs
  rw [h]
  cases fs.hhisTxt with
  | none => rfl
  | some lines =>
      cases hrl : runLoad singleStep parseHHILine lines [] with
      | mk m r => cases r <;> simp [hrl]

theorem obLoaded (σ : DLState) (fs : FS) (sym : String) (c : Bool)
    (m : PyDict OBRecord) (h : σ.ElementOpenBabelDerivedData = some m) :
    LookupElementOpenBabelDerivedData σ fs sym c =
      (σ, finishLookup σ.PrintWarnings m (obNotFoundMsg sym) sym) := by
  unfold LookupElementOpenBabelDerivedData
  rw [h]

theorem obFresh (σ : DLState) (fs : FS) (sym : String) (c : Bool)
    (h : σ.ElementOpenBabelDerivedData = none) :
    LookupElementOpenBabelDerivedData σ fs sym c =
      match fs.elementTxt with
      | none =>
          ({ σ with ElementOpenBabelDerivedData := some [] }, [], Except.error PyError.ioError)
      | some lines =>
          match runLoadOB σ.PrintWarnings lines [] with
          | (m, out, Except.error e) =>
              ({ σ with ElementOpenBabelDerivedData := some m }, out, Except.error e)
          | (m, out, Except.ok _) =>
              ({ σ with ElementOpenBabelDerivedData := some m },
               out ++ (finishLookup σ.PrintWarnings m (obNotFoundMsg sym) sym).1,
               (finishLookup σ.PrintWarnings m (obNotFoundMsg sym) sym).2) := by
  unfold LookupElementOpenBabelDerivedData
  rw [h]
  cases fs.elementTxt with
  | none => rfl
  | some lines =>
      cases hrl : runLoadOB σ.PrintWarnings lines [] with
      | mk m t =>
          cases t with
          | mk out r => cases r <;> simp [hrl]

theorem eigLoaded (σ : DLState) (fs : FS) (sym : String)
    (m : PyDict Rat) (h : σ.ElementEigenvalues = some m) :
    LookupElementEigenvalue σ fs sym =
      (σ, finishLookup σ.PrintWarnings m (eigNotFoundMsg sym) sym) := by
  unfold LookupElementEigenvalue
  rw [h]

theorem eigFresh (σ : DLState) (fs : FS) (sym : String)
    (h : σ.ElementEigenvalues = none) :
    LookupElementEigenvalue σ fs sym =
      match fs.eigenvaluesCsv with
      | none => ({ σ with ElementEigenvalues := some [] }, [], Except.error PyError.ioError)
      | some [] =>
          ({ σ with ElementEigenvalues := some [] }, [], Except.error PyError.stopIteration)
      | some (_hdr :: dataRows) =>
          match runLoad singleStep (csvRow parseEigRow) dataRows [] with
          | (m, Except.error e) => ({ σ with ElementEigenvalues := some m }, [], Except.error e)
          | (m, Except.ok _) =>
              ({ σ with ElementEigenvalues := some m },
               finishLookup σ.PrintWarnings m (eigNotFoundMsg sym) sym) := by
  unfold LookupElementEigenvalue
  rw [h]
  cases fs.eigenvaluesCsv with
  | none => rfl
  | some rows =>
      cases rows with
      | nil => rfl
      | cons hdr dataRows =>
          cases hrl : runLoad singleStep (csvRow parseEigRow) dataRows [] with
          | mk m r => cases r <;> simp [hrl]

theorem sEigLoaded (σ : DLState) (fs : FS) (sym : String)
    (m : PyDict Rat) (h : σ.ElementSEigenvalues = some m) :
    LookupElementSEigenvalue σ fs sym =
      (σ, finishLookup σ.PrintWarnings m (sEigNotFoundMsg sym) sym) := by
  unfold LookupElementSEigenvalue
  rw [h]

theorem sEigFresh (σ : DLState) (fs : FS) (sym : String)
    (h : σ.ElementSEigenvalues = none) :
    LookupElementSEigenvalue σ fs sym =
      match fs.eigenvaluesSCsv with
      | none =>
          ({ σ with ElementSEigenvalues := some [] }, [], Except.error PyError.ioError)
      | some [] =>
          ({ σ with ElementSEigenvalues := some [] }, [], Except.error PyError.stopIteration)
      | some (_hdr :: dataRows) =>
          match σ.ElementEigenvalues with
          | none =>
              match sEigLoopNoneCache dataRows with
              | Except.error e =>
                  ({ σ with ElementSEigenvalues := some [] }, [], Except.error e)
              | Except.ok _ =>
                  ({ σ with ElementSEigenvalues := some [] },
                   finishLookup σ.PrintWarnings [] (sEigNotFoundMsg sym) sym)
          | some em =>
              match runLoad singleStep (csvRow parseEigRow) dataRows em with
              | (m, Except.error e) =>
                  ({ σ with ElementSEigenvalues := some [], ElementEigenvalues := some m },
                   [], Except.error e)
              | (m, Except.ok _) =>
                  ({ σ with ElementSEigenvalues := some [], ElementEigenvalues := some m },
                   finishLookup σ.PrintWarnings [] (sEigNotFoundMsg sym) sym) := by
  unfold LookupElementSEigenvalue
  rw [h]
  cases fs.eigenvaluesSCsv with
  | none => rfl
  | some rows =>
      cases rows with
      | nil => rfl
      | cons hdr dataRows =>
          cases he : σ.ElementEigenvalues with
          | none =>
              cases hloop : sEigLoopNoneCache dataRows with
              | error e => simp [hloop]
              | ok u => simp [hloop]
          | some em =>
              cases hrl : runLoad singleStep (csvRow parseEigRow) dataRows em with
              | mk m r => cases r <;> simp [hrl]

theorem shannonLoaded (σ : DLState) (fs : FS) (sym : String) (c : Bool)
    (m : PyDict (List ShannonRecord)) (h : σ.ElementShannonRadiiData = some m) :
    LookupElementShannonRadiusData σ fs sym c =
      (σ, finishLookup σ.PrintWarnings m (shannonNotFoundMsg sym) sym) := by
  unfold LookupElementShannonRadiusData
  rw [h]

theorem shannonFresh (σ : DLState) (fs : FS) (sym : String) (c : Bool)
    (h : σ.ElementShannonRadiiData = none) :
    LookupElementShannonRadiusData σ fs sym c =
      match fs.shannonRadiiCsv with
      | none => ({ σ with ElementShannonRadiiData := some [] }, [], Except.error PyError.ioError)
      | some [] =>
          ({ σ with ElementShannonRadiiData := some [] }, [],
           Except.error PyError.stopIteration)
      | some (_hdr :: dataRows) =>
          match runLoad multiStep (csvRow parseShannonRow) dataRows [] with
          | (m, Except.error e) =>
              ({ σ with ElementShannonRadiiData := some m }, [], Except.error e)
          | (m, Except.ok _) =>
              ({ σ with ElementShannonRadiiData := some m },
               finishLookup σ.PrintWarnings m (shannonNotFoundMsg sym) sym) := by
  unfold LookupElementShannonRadiusData
  rw [h]
  cases fs.shannonRadiiCsv with
  | none => rfl
  | some rows =>
      cases rows with
      | nil => rfl
      | cons hdr dataRows =>
          cases hrl : runLoad multiStep (csvRow parseShannonRow) dataRows [] with
          | mk m r => cases r <;> simp [hrl]

theorem sseLoaded (σ : DLState) (fs : FS) (sym : String)
    (m : PyDict SSERecord) (h : σ.ElementSSEData = some m) :
    LookupElementSSEData σ fs sym =
      (σ, finishLookup σ.PrintWarnings m (sseNotFoundMsg sym) sym) := by
  unfold LookupElementSSEData
  rw [h]

theorem sseFresh (σ : DLState) (fs : FS) (sym : String)
    (h : σ.ElementSSEData = none) :
    LookupElementSSEData σ fs sym =
      match fs.sseCsv with
      | none => ({ σ with ElementSSEData := some [] }, [], Except.error PyError.ioError)
      | some rows =>
          match runLoad singleStep (csvRow parseSSERow) rows [] with
          | (m, Except.error e) => ({ σ with ElementSSEData := some m }, [], Except.error e)
          | (m, Except.ok _) =>
              ({ σ with ElementSSEData := some m },
               finishLookup σ.PrintWarnings m (sseNotFoundMsg sym) sym) := by
  unfold LookupElementSSEData
  rw [h]
  cases fs.sseCsv with
  | none => rfl
  | some rows =>
      cases hrl : runLoad singleStep (csvRow parseSSERow) rows [] with
      | mk m r => cases r <;> simp [hrl]

theorem sse2015Loaded (σ : DLState) (fs : FS) (sym : String) (c : Bool)
    (m : PyDict (List SSE2015Record)) (h : σ.ElementSSE2015Data = some m) :
    LookupElementSSE2015Data σ fs sym c =
      (σ, finishLookup σ.PrintWarnings m (sse2015NotFoundMsg sym) sym) := by
  unfold LookupElementSSE2015Data
  rw [h]

theorem sse2015Fresh (σ : DLState) (fs : FS) (sym : String) (c : Bool)
    (h : σ.ElementSSE2015Data = none) :
    LookupElementSSE2015Data σ fs sym c =
      match fs.sse2015Csv with
      | none => ({ σ with ElementSSE2015Data := some [] }, [], Except.error PyError.ioError)
      | some rows =>
          match runLoad multiStep (csvRow parseSSE2015Row) rows [] with
          | (m, Except.error e) => ({ σ with ElementSSE2015Data := some m }, [], Except.error e)
          | (m, Except.ok _) =>
              ({ σ with ElementSSE2015Data := some m },
               finishLookup σ.PrintWarnings m (sse2015NotFoundMsg sym) sym) := by
  unfold LookupElementSSE2015Data
  rw [h]
  cases fs.sse2015Csv with
  | none => rfl
  | some rows =>
      cases hrl : runLoad multiStep (csvRow parseSSE2015Row) rows [] with
      | mk m r => cases r <;> simp [hrl]

theorem ssePaulingLoaded (σ : DLState) (fs : FS) (sym : String)
    (m : PyDict SSEPaulingRecord) (h : σ.ElementSSEPaulingData = some m) :
    LookupElementSSEPaulingData σ fs sym =
      (σ, finishLookup σ.PrintWarnings m (ssePaulingNotFoundMsg sym) sym) := by
  unfold LookupElementSSEPaulingData
  rw [h]

theorem ssePaulingFresh (σ : DLState) (fs : FS) (sym : String)
    (h : σ.ElementSSEPaulingData = none) :
    LookupElementSSEPaulingData σ fs sym =
      match fs.ssePaulingCsv with
      | none => ({ σ with ElementSSEPaulingData := some [] }, [], Except.error PyError.ioError)
      | some rows =>
          match runLoad singleStep (csvRow parseSSEPaulingRow) rows [] with
          | (m, Except.error e) =>
              ({ σ with ElementSSEPaulingData := some m }, [], Except.error e)
          | (m, Except.ok _) =>
              ({ σ with ElementSSEPaulingData := some m },
               finishLookup σ.PrintWarnings m (ssePaulingNotFoundMsg sym) sym) := by
  unfold LookupElementSSEPaulingData
  rw [h]
  cases fs.ssePaulingCsv with
  | none => rfl
  | some rows =>
      cases hrl : runLoad singleStep (csvRow parseSSEPaulingRow) rows [] with
      | mk m r => cases r <;> simp [hrl]

theorem finishLookup_some {β : Type} (pw : Bool) (m : PyDict β) (msg sym : String)
    (v : β) (hm : dictGet m sym = some v) :
    finishLookup pw m msg sym = ([], Except.ok (some v)) := by
  unfold finishLookup
  rw [hm]

theorem finishLookup_none {β : Type} (pw : Bool) (m : PyDict β) (msg sym : String)
    (hm : dictGet m sym = none) :
    finishLookup pw m msg sym = (warnOut pw msg, Except.ok none) := by
  unfold finishLookup
  rw [hm]

/-! ## Lemmas about the heap refinement -/

theorem map_range_getD {ρ : Type} (l : List ρ) (dflt : ρ) :
    (List.range l.length).map (fun i => l.getD i dflt) = l := by
  induction l with
  | nil => rfl
  | cons a t ih =>
      rw [List.length_cons, List.range_succ_eq_map, List.map_cons, List.map_map]
      have hcomp : ((fun i => (a :: t).getD i dflt) ∘ Nat.succ) = fun i => t.getD i dflt := rfl
      rw [hcomp, ih]
      rfl

/-- Dereferencing the freshly copied cells gives back the copied values. -/
theorem copyCellValue {ρ : Type} (dh ext : List ρ) (dflt : ρ) :
    ((List.range ext.length).map (fun i => dh.length + i)).map
        (fun d => (dh ++ ext).getD d dflt) = ext := by
  rw [List.map_map]
  have hcomp : ((fun d => (dh ++ ext).getD d dflt) ∘ fun i => dh.length + i)
      = fun i => ext.getD i dflt := by
    funext i
    simp only [Function.comp]
    rw [List.getD_eq_getElem?_getD, List.getElem?_append_right (Nat.le_add_right _ _),
      Nat.add_sub_cancel_left, ← List.getD_eq_getElem?_getD]
  rw [hcomp, map_range_getD]

theorem flatRef_copy_false {ρ : Type} (msg : String → String) (pw : Bool)
    (cache : PyDict Nat) (h : List ρ) (dflt : ρ) (sym : String) (a : Nat)
    (hc : dictGet cache sym = some a) :
    flatRefLookup msg pw cache h dflt sym false = (h, [], some a) := by
  unfold flatRefLookup
  rw [hc]
  rfl

theorem flatRef_copy_true {ρ : Type} (msg : String → String) (pw : Bool)
    (cache : PyDict Nat) (h : List ρ) (dflt : ρ) (sym : String) (a : Nat)
    (hc : dictGet cache sym = some a) :
    flatRefLookup msg pw cache h dflt sym true = (h ++ [h.getD a dflt], [], some h.length) := by
  unfold flatRefLookup
  rw [hc]
  rfl

/-- Any later call on a heap that agrees with the original below the
original's size returns the original cached value, whatever its `copy`
flag: mutations confined to freshly allocated cells are invisible. -/
theorem flatRef_frame {ρ : Type} (msg : String → String) (pw : Bool) (cache : PyDict Nat)
    (dflt : ρ) (h h₃ : List ρ) (hagree : ∀ i, i < h.length → h₃[i]? = h[i]?)
    (sym₂ : String) (b : Nat) (hb : dictGet cache sym₂ = some b) (hblt : b < h.length)
    (c : Bool) :
    refValue (flatRefLookup msg pw cache h₃ dflt sym₂ c).1
      (flatRefLookup msg pw cache h₃ dflt sym₂ c).2.2 = h[b]? := by
  cases c with
  | false =>
      rw [flatRef_copy_false msg pw cache h₃ dflt sym₂ b hb]
      show h₃[b]? = h[b]?
      exact hagree b hblt
  | true =>
      rw [flatRef_copy_true msg pw cache h₃ dflt sym₂ b hb]
      show (h₃ ++ [h₃.getD b dflt])[h₃.length]? = h[b]?
      rw [List.getElem?_concat_length, List.getD_eq_getElem?_getD, hagree b hblt]
      rw [List.getElem?_eq_getElem hblt]
      rfl

theorem twoLevel_copy_false {ρ : Type} (msg : String → String) (pw : Bool)
    (cache : PyDict Nat) (dh : List ρ) (lh : List (List Nat)) (dflt : ρ) (sym : String)
    (a : Nat) (hc : dictGet cache sym = some a) :
    twoLevelRefLookup msg pw cache dh lh dflt sym false = ((dh, lh), [], some a) := by
  unfold twoLevelRefLookup
  rw [hc]
  rfl

theorem twoLevel_copy_true {ρ : Type} (msg : String → String) (pw : Bool)
    (cache : PyDict Nat) (dh : List ρ) (lh : List (List Nat)) (dflt : ρ) (sym : String)
    (a : Nat) (hc : dictGet cache sym = some a) :
    twoLevelRefLookup msg pw cache dh lh dflt sym true =
      ((dh ++ (lh.getD a []).map (fun d => dh.getD d dflt),
        lh ++ [(List.range (lh.getD a []).length).map (fun i => dh.length + i)]),
       [], some lh.length) := by
  unfold twoLevelRefLookup
  rw [hc]
  rfl

/-- The value seen through a list cell is unchanged between two heap pairs
that agree on the cell and on every record it references. -/
theorem listCellValueAgree {ρ : Type} (dflt : ρ) (dh dh₃ : List ρ)
    (lh lh₃ : List (List Nat))
    (hd : ∀ i, i < dh.length → dh₃[i]? = dh[i]?)
    (hl : ∀ j, j < lh.length → lh₃[j]? = lh[j]?)
    (b : Nat) (hb : b < lh.length) (hwf : ∀ d ∈ lh.getD b [], d < dh.length) :
    (lh₃[b]?).map (fun addrs => addrs.map (fun d => dh₃.getD d dflt))
      = (lh[b]?).map (fun addrs => addrs.map (fun d => dh.getD d dflt)) := by
  rw [hl b hb]
  cases hgb : lh[b]? with
  | none => rfl
  | some addrs =>
      have haddrs : lh.getD b [] = addrs := by
        rw [List.getD_eq_getElem?_getD, hgb]
        rfl
      simp only [Option.map]
      congr 1
      refine List.map_congr_left (fun d hdm => ?_)
      have hdlt : d < dh.length := hwf d (haddrs ▸ hdm)
      rw [List.getD_eq_getElem?_getD, List.getD_eq_getElem?_getD, hd d hdlt]

/-- The two-level analogue of `flatRef_frame`: a later call on heaps agreeing
with the originals below their sizes returns the original cached value. -/
theorem twoLevel_frame {ρ : Type} (msg : String → String) (pw : Bool) (cache : PyDict Nat)
    (dflt : ρ) (dh dh₃ : List ρ) (lh lh₃ : List (List Nat))
    (hd : ∀ i, i < dh.length → dh₃[i]? = dh[i]?)
    (hl : ∀ j, j < lh.length → lh₃[j]? = lh[j]?)
    (sym₂ : String) (b : Nat) (hb : dictGet cache sym₂ = some b) (hblt : b < lh.length)
    (hwf : ∀ d ∈ lh.getD b [], d < dh.length) (c : Bool) :
    listRefValue dflt (twoLevelRefLookup msg pw cache dh₃ lh₃ dflt sym₂ c).1.1
      (twoLevelRefLookup msg pw cache dh₃ lh₃ dflt sym₂ c).1.2
      (twoLevelRefLookup msg pw cache dh₃ lh₃ dflt sym₂ c).2.2
      = listRefValue dflt dh lh (some b) := by
  cases c with
  | false =>
      rw [twoLevel_copy_false msg pw cache dh₃ lh₃ dflt sym₂ b hb]
      show (lh₃[b]?).map (fun addrs => addrs.map (fun d => dh₃.getD d dflt))
        = (lh[b]?).map (fun addrs => addrs.map (fun d => dh.getD d dflt))
      exact listCellValueAgree dflt dh dh₃ lh lh₃ hd hl b hblt hwf
  | true =>
      rw [twoLevel_copy_true msg pw cache dh₃ lh₃ dflt sym₂ b hb]
      have hb₃ : lh₃[b]? = lh[b]? := hl b hblt
      have hlh : lh[b]? = some (lh.getD b []) := by
        rw [List.getD_eq_getElem?_getD, List.getElem?_eq_getElem hblt]
        rfl
      have hlh₃ : lh₃.getD b [] = lh.getD b [] := by
        rw [List.getD_eq_getElem?_getD, hb₃, hlh]
        rfl
      show ((lh₃ ++ [(List.range (lh₃.getD b []).length).map
            (fun i => dh₃.length + i)])[lh₃.length]?).map
          (fun addrs => addrs.map (fun d =>
            (dh₃ ++ (lh₃.getD b []).map (fun d => dh₃.getD d dflt)).getD d dflt))
        = (lh[b]?).map (fun addrs => addrs.map (fun d => dh.getD d dflt))
      rw [List.getElem?_concat_length]
      simp only [Option.map]
      rw [show (lh₃.getD b []).length
          = ((lh₃.getD b []).map (fun d => dh₃.getD d dflt)).length from by
        simp]
      rw [copyCellValue dh₃ ((lh₃.getD b []).map (fun d => dh₃.getD d dflt)) dflt]
      have h₃agree := listCellValueAgree dflt dh dh₃ lh lh₃ hd hl b hblt hwf
      rw [hb₃, hlh] at h₃agree
      rw [hlh₃, hlh]
      simpa [Option.map] using h₃agree

theorem getD_eq_some {ρ : Type} (h : List ρ) (a : Nat) (dflt : ρ) (ha : a < h.length) :
    some (h.getD a dflt) = h[a]? := by
  rw [List.getD_eq_getElem?_getD, List.getElem?_eq_getElem ha]
  rfl

theorem getD_append_left {ρ : Type} (l₁ l₂ : List ρ) (i : Nat) (dflt : ρ)
    (hi : i < l₁.length) : (l₁ ++ l₂).getD i dflt = l₁.getD i dflt := by
  rw [List.getD_eq_getElem?_getD, List.getD_eq_getElem?_getD, List.getElem?_append_left hi]

theorem copied_cell_value {ρ : Type} (dh ext : List ρ) (dflt : ρ) (n : Nat)
    (hn : n = ext.length) :
    ((List.range n).map (fun i => dh.length + i)).map (fun d => (dh ++ ext).getD d dflt)
      = ext := by
  subst hn
  exact copyCellValue dh ext dflt

theorem map_getD_extend {ρ : Type} (dh ext2 : List ρ) (dflt : ρ) (l : List Nat)
    (hl : ∀ d ∈ l, d < dh.length) :
    l.map (fun d => (dh ++ ext2).getD d dflt) = l.map (fun d => dh.getD d dflt) :=
  List.map_congr_left (fun d hd => getD_append_left dh ext2 d dflt (hl d hd))

/-- The whole `copy=True` story for the one-level caches: two consecutive
copying calls return the two fresh addresses just past the original heap
(distinct from each other and from the cached address), whose cells hold the
cached value; and any heap agreeing with the original below its size — in
particular the post-copy heap with the fresh cells mutated arbitrarily —
makes every later call return the original cached value. -/
theorem flatCopyTrueSpec {ρ : Type} (msg : String → String) (pw : Bool) (cache : PyDict Nat)
    (h : List ρ) (dflt : ρ) (sym : String) (a : Nat)
    (hc : dictGet cache sym = some a) (ha : a < h.length) :
    (flatRefLookup msg pw cache h dflt sym true).2.2 = some h.length
    ∧ (flatRefLookup msg pw cache (flatRefLookup msg pw cache h dflt sym true).1
        dflt sym true).2.2 = some (h.length + 1)
    ∧ a ≠ h.length ∧ a ≠ h.length + 1
    ∧ ((flatRefLookup msg pw cache (flatRefLookup msg pw cache h dflt sym true).1
        dflt sym true).1)[h.length]? = h[a]?
    ∧ ((flatRefLookup msg pw cache (flatRefLookup msg pw cache h dflt sym true).1
        dflt sym true).1)[h.length + 1]? = h[a]?
    ∧ ∀ h₃ : List ρ, (∀ i, i < h.length → h₃[i]? = h[i]?) →
        ∀ (sym₂ : String) (b : Nat) (c : Bool), dictGet cache sym₂ = some b → b < h.length →
          refValue (flatRefLookup msg pw cache h₃ dflt sym₂ c).1
            (flatRefLookup msg pw cache h₃ dflt sym₂ c).2.2 = h[b]? := by
  have e₁ := flatRef_copy_true msg pw cache h dflt sym a hc
  rw [e₁]
  have e₂ := flatRef_copy_true msg pw cache (h ++ [h.getD a dflt]) dflt sym a hc
  simp only []
  rw [e₂]
  have hlen : (h ++ [h.getD a dflt]).length = h.length + 1 := by simp
  refine ⟨by simp, by simp, Nat.ne_of_lt ha,
    Nat.ne_of_lt (Nat.lt_succ_of_lt ha), ?_, ?_, ?_⟩
  · rw [List.getElem?_append_left (by simp : h.length < (h ++ [h.getD a dflt]).length),
      List.getElem?_concat_length]
    exact getD_eq_some h a dflt ha
  · rw [show h.length + 1 = (h ++ [h.getD a dflt]).length from hlen.symm,
      List.getElem?_concat_length, getD_append_left h [h.getD a dflt] a dflt ha]
    exact getD_eq_some h a dflt ha
  · intro h₃ hagree sym₂ b c hb hblt
    exact flatRef_frame msg pw cache dflt h h₃ hagree sym₂ b hb hblt c

/-- The whole `copy=True` story for the two-level caches (lists of record
objects): two consecutive copying calls return two fresh list cells (the
addresses just past the original list heap, distinct from the cached
address), each pointing only at freshly copied record cells (addresses at or
past the original record heap) whose dereferenced value equals the cached
value; and any heap pair agreeing with the originals below their sizes — in
particular the post-copy heaps with any of those fresh cells mutated — makes
every later call return the original cached value. -/
theorem twoLevelCopyTrueSpec {ρ : Type} (msg : String → String) (pw : Bool)
    (cache : PyDict Nat) (dh : List ρ) (lh : List (List Nat)) (dflt : ρ) (sym : String)
    (a : Nat) (hc : dictGet cache sym = some a) (ha : a < lh.length)
    (hwf : ∀ d ∈ lh.getD a [], d < dh.length)
    (t₁ t₂ : (List ρ × List (List Nat)) × List String × Option Nat)
    (ht₁ : twoLevelRefLookup msg pw cache dh lh dflt sym true = t₁)
    (ht₂ : twoLevelRefLookup msg pw cache t₁.1.1 t₁.1.2 dflt sym true = t₂) :
    t₁.2.2 = some lh.length
    ∧ t₂.2.2 = some (lh.length + 1)
    ∧ a ≠ lh.length ∧ a ≠ lh.length + 1
    ∧ listRefValue dflt t₂.1.1 t₂.1.2 (some lh.length) = listRefValue dflt dh lh (some a)
    ∧ listRefValue dflt t₂.1.1 t₂.1.2 (some (lh.length + 1))
        = listRefValue dflt dh lh (some a)
    ∧ (∀ addrs₁, (t₂.1.2)[lh.length]? = some addrs₁ → ∀ d ∈ addrs₁, dh.length ≤ d)
    ∧ (∀ addrs₂, (t₂.1.2)[lh.length + 1]? = some addrs₂ → ∀ d ∈ addrs₂, dh.length ≤ d)
    ∧ ∀ (dh₃ : List ρ) (lh₃ : List (List Nat)),
        (∀ i, i < dh.length → dh₃[i]? = dh[i]?) →
        (∀ j, j < lh.length → lh₃[j]? = lh[j]?) →
        ∀ (sym₂ : String) (b : Nat) (c : Bool), dictGet cache sym₂ = some b →
          b < lh.length → (∀ d ∈ lh.getD b [], d < dh.length) →
          listRefValue dflt (twoLevelRefLookup msg pw cache dh₃ lh₃ dflt sym₂ c).1.1
              (twoLevelRefLookup msg pw cache dh₃ lh₃ dflt sym₂ c).1.2
              (twoLevelRefLookup msg pw cache dh₃ lh₃ dflt sym₂ c).2.2
            = listRefValue dflt dh lh (some b) := by
  subst ht₁
  subst ht₂
  have e₁ := twoLevel_copy_true msg pw cache dh lh dflt sym a hc
  rw [e₁]
  simp only []
  have F1 : (lh ++ [(List.range (lh.getD a []).length).map (fun i => dh.length + i)]).getD a []
      = lh.getD a [] :=
    getD_append_left lh _ a [] ha
  have e₂ := twoLevel_copy_true msg pw cache
    (dh ++ (lh.getD a []).map (fun d => dh.getD d dflt))
    (lh ++ [(List.range (lh.getD a []).length).map (fun i => dh.length + i)]) dflt sym a hc
  rw [e₂]
  simp only []
  rw [F1]
  have hlh1len : (lh ++ [(List.range (lh.getD a []).length).map
      (fun i => dh.length + i)]).length = lh.length + 1 := by simp
  have hext_len : (lh.getD a []).length
      = ((lh.getD a []).map (fun d => dh.getD d dflt)).length := by simp
  have hna1_lt : ∀ d ∈ (List.range (lh.getD a []).length).map (fun i => dh.length + i),
      d < (dh ++ (lh.getD a []).map (fun d => dh.getD d dflt)).length := by
    intro d hd
    obtain ⟨i, hi, rfl⟩ := List.mem_map.mp hd
    rw [List.mem_range] at hi
    simp only [List.length_append, List.length_map]
    exact Nat.add_lt_add_left hi _
  have hextp_len : (lh.getD a []).length
      = ((lh.getD a []).map (fun d =>
          (dh ++ (lh.getD a []).map (fun d => dh.getD d dflt)).getD d dflt)).length := by
    simp
  -- the dereferenced value of the first copy
  have hval₁ :
      ((List.range (lh.getD a []).length).map (fun i => dh.length + i)).map
          (fun d => ((dh ++ (lh.getD a []).map (fun d => dh.getD d dflt))
            ++ (lh.getD a []).map (fun d =>
              (dh ++ (lh.getD a []).map (fun d => dh.getD d dflt)).getD d dflt)).getD d dflt)
        = (lh.getD a []).map (fun d => dh.getD d dflt) := by
    rw [map_getD_extend _ _ dflt _ hna1_lt]
    exact copied_cell_value dh _ dflt _ hext_len
  -- the copied record cells of the second copy hold the original values too
  have hextp :
      (lh.getD a []).map (fun d =>
          (dh ++ (lh.getD a []).map (fun d => dh.getD d dflt)).getD d dflt)
        = (lh.getD a []).map (fun d => dh.getD d dflt) :=
    map_getD_extend dh _ dflt _ hwf
  have hval₂ :
      ((List.range (lh.getD a []).length).map (fun i =>
          (dh ++ (lh.getD a []).map (fun d => dh.getD d dflt)).length + i)).map
          (fun d => ((dh ++ (lh.getD a []).map (fun d => dh.getD d dflt))
            ++ (lh.getD a []).map (fun d =>
              (dh ++ (lh.getD a []).map (fun d => dh.getD d dflt)).getD d dflt)).getD d dflt)
        = (lh.getD a []).map (fun d => dh.getD d dflt) := by
    rw [copied_cell_value _ _ dflt _ hextp_len]
    exact hextp
  refine ⟨trivial, by rw [hlh1len], Nat.ne_of_lt ha, Nat.ne_of_lt (Nat.lt_succ_of_lt ha),
    ?_, ?_, ?_, ?_, ?_⟩
  · unfold listRefValue
    simp only [Option.bind]
    rw [List.getElem?_append_left (by simp : lh.length
        < (lh ++ [(List.range (lh.getD a []).length).map (fun i => dh.length + i)]).length),
      List.getElem?_concat_length, ← getD_eq_some lh a [] ha]
    simp only [Option.map]
    rw [hval₁]
  · unfold listRefValue
    simp only [Option.bind]
    rw [show lh.length + 1 = (lh ++ [(List.range (lh.getD a []).length).map
        (fun i => dh.length + i)]).length from hlh1len.symm,
      List.getElem?_concat_length, ← getD_eq_some lh a [] ha]
    simp only [Option.map]
    rw [hval₂]
  · intro addrs₁ haddrs₁ d hd
    rw [List.getElem?_append_left (by simp : lh.length
        < (lh ++ [(List.range (lh.getD a []).length).map (fun i => dh.length + i)]).length),
      List.getElem?_concat_length] at haddrs₁
    obtain rfl : (List.range (lh.getD a []).length).map (fun i => dh.length + i) = addrs₁ := by
      injection haddrs₁
    obtain ⟨i, hi, rfl⟩ := List.mem_map.mp hd
    exact Nat.le_add_right _ _
  · intro addrs₂ haddrs₂ d hd
    rw [show lh.length + 1 = (lh ++ [(List.range (lh.getD a []).length).map
        (fun i => dh.length + i)]).length from hlh1len.symm,
      List.getElem?_concat_length] at haddrs₂
    obtain rfl : (List.range (lh.getD a []).length).map (fun i =>
        (dh ++ (lh.getD a []).map (fun d => dh.getD d dflt)).length + i) = addrs₂ := by
      injection haddrs₂
    obtain ⟨i, hi, rfl⟩ := List.mem_map.mp hd
    simp only [List.length_append]
    exact Nat.le_trans (Nat.le_add_right _ _) (Nat.le_add_right _ _)
  · intro dh₃ lh₃ hd hl sym₂ b c hb hblt hwfb
    exact twoLevel_frame msg pw cache dflt dh dh₃ lh lh₃ hd hl sym₂ b hb hblt hwfb c

/-- Once a cache is a dict, the lookup phase never raises. -/
theorem finishLookup_ok {β : Type} (pw : Bool) (m : PyDict β) (msg sym : String) :
    ∃ w v, finishLookup pw m msg sym = (w, Except.ok v) := by
  unfold finishLookup
  cases dictGet m sym <;> exact ⟨_, _, rfl⟩

/-! ## First calls always initialise the cache (even on failure) -/

theorem oxFresh_isSome (σ : DLState) (fs : FS) (sym : String) (c : Bool)
    (h : σ.ElementOxidationStates = none) :
    ((LookupElementOxidationStates σ fs sym c).1).ElementOxidationStates.isSome = true := by
  rw [oxFresh σ fs sym c h]
  cases hf : fs.oxidationStatesTxt with
  | none => rfl
  | some lines =>
      simp only []
      cases hrl : runLoad singleStep parseOxLine lines [] with
      | mk m r => cases r <;> simp [hrl]

theorem crustalFresh_isSome (σ : DLState) (fs : FS) (sym : String)
    (h : σ.ElementCrustalAbundances = none) :
    ((LookupElementCrustalAbundance σ fs sym).1).ElementCrustalAbundances.isSome = true := by
  rw [crustalFresh σ fs sym h]
  cases hf : fs.crustalAbundanceTxt with
  | none => rfl
  | some lines =>
      simp only []
      cases hrl : runLoad singleStep parseCrustalLine lines [] with
      | mk m r => cases r <;> simp [hrl]

theorem hhiFresh_isSome (σ : DLState) (fs : FS) (sym : String)
    (h : σ.ElementHHIs = none) :
    ((LookupElementHHIs σ fs sym).1).ElementHHIs.isSome = true := by
  rw [hhiFresh σ fs sym h]
  cases hf : fs.hhisTxt with
  | none => rfl
  | some lines =>
      simp only []
      cases hrl : runLoad singleStep parseHHILine lines [] with
      | mk m r => cases r <;> simp [hrl]

theorem obFresh_isSome (σ : DLState) (fs : FS) (sym : String) (c : Bool)
    (h : σ.ElementOpenBabelDerivedData = none) :
    ((LookupElementOpenBabelDerivedData σ fs sym c).1).ElementOpenBabelDerivedData.isSome
      = true := by
  rw [obFresh σ fs sym c h]
  cases hf : fs.elementTxt with
  | none => rfl
  | some lines =>
      simp only []
      cases hrl : runLoadOB σ.PrintWarnings lines [] with
      | mk m t =>
          cases t with
          | mk out r => cases r <;> simp [hrl]

theorem eigFresh_isSome (σ : DLState) (fs : FS) (sym : String)
    (h : σ.ElementEigenvalues = none) :
    ((LookupElementEigenvalue σ fs sym).1).ElementEigenvalues.isSome = true := by
  rw [eigFresh σ fs sym h]
  cases hf : fs.eigenvaluesCsv with
  | none => rfl
  | some rows =>
      cases rows with
      | nil => rfl
      | cons hdr dataRows =>
          simp only []
          cases hrl : runLoad singleStep (csvRow parseEigRow) dataRows [] with
          | mk m r => cases r <;> simp [hrl]

theorem sEigFresh_isSome (σ : DLState) (fs : FS) (sym : String)
    (h : σ.ElementSEigenvalues = none) :
    ((LookupElementSEigenvalue σ fs sym).1).ElementSEigenvalues.isSome = true := by
  rw [sEigFresh σ fs sym h]
  cases hf : fs.eigenvaluesSCsv with
  | none => rfl
  | some rows =>
      cases rows with
      | nil => rfl
      | cons hdr dataRows =>
          simp only []
          cases he : σ.ElementEigenvalues with
          | none => cases hloop : sEigLoopNoneCache dataRows <;> simp [hloop]
          | some em =>
              simp only []
              cases hrl : runLoad singleStep (csvRow parseEigRow) dataRows em with
              | mk m r => cases r <;> simp [hrl]

theorem shannonFresh_isSome (σ : DLState) (fs : FS) (sym : String) (c : Bool)
    (h : σ.ElementShannonRadiiData = none) :
    ((LookupElementShannonRadiusData σ fs sym c).1).ElementShannonRadiiData.isSome = true := by
  rw [shannonFresh σ fs sym c h]
  cases hf : fs.shannonRadiiCsv with
  | none => rfl
  | some rows =>
      cases rows with
      | nil => rfl
      | cons hdr dataRows =>
          simp only []
          cases hrl : runLoad multiStep (csvRow parseShannonRow) dataRows [] with
          | mk m r => cases r <;> simp [hrl]

theorem sseFresh_isSome (σ : DLState) (fs : FS) (sym : String)
    (h : σ.ElementSSEData = none) :
    ((LookupElementSSEData σ fs sym).1).ElementSSEData.isSome = true := by
  rw [sseFresh σ fs sym h]
  cases hf : fs.sseCsv with
  | none => rfl
  | some rows =>
      simp only []
      cases hrl : runLoad singleStep (csvRow parseSSERow) rows [] with
      | mk m r => cases r <;> simp [hrl]

theorem sse2015Fresh_isSome (σ : DLState) (fs : FS) (sym : String) (c : Bool)
    (h : σ.ElementSSE2015Data = none) :
    ((LookupElementSSE2015Data σ fs sym c).1).ElementSSE2015Data.isSome = true := by
  rw [sse2015Fresh σ fs sym c h]
  cases hf : fs.sse2015Csv with
  | none => rfl
  | some rows =>
      simp only []
      cases hrl : runLoad multiStep (csvRow parseSSE2015Row) rows [] with
      | mk m r => cases r <;> simp [hrl]

theorem ssePaulingFresh_isSome (σ : DLState) (fs : FS) (sym : String)
    (h : σ.ElementSSEPaulingData = none) :
    ((LookupElementSSEPaulingData σ fs sym).1).ElementSSEPaulingData.isSome = true := by
  rw [ssePaulingFresh σ fs sym h]
  cases hf : fs.ssePaulingCsv with
  | none => rfl
  | some rows =>
      simp only []
      cases hrl : runLoad singleStep (csvRow parseSSEPaulingRow) rows [] with
      | mk m r => cases r <;> simp [hrl]

theorem combineRecords_none_of_ne {ρ : Type} (l : List ρ) (h : l ≠ []) :
    combineRecords none l = some l := by
  cases l with
  | nil => exact absurd rfl h
  | cons a t => rfl

/-! ## The claims -/

/-- C1 (code_bug evidence): the claim that after the first call to
`LookupElementSEigenvalue` its own cache's key set is the set of symbols of
`Eigenvalues_s.csv`, that lookups return the parsed column-1 floats, and that
no other dataset's cache changes, fails on the code.  On a fresh state the
first call raises `TypeError` (line 343 assigns into `_ElementEigenvalues`,
still `None`) leaving `_ElementSEigenvalues = {}` — key set empty, not
`{"H"}`; and when `_ElementEigenvalues` is already a dict, the call pollutes
*that* cache with the file's rows, leaves its own cache empty, and returns
`None` even for the symbol present in the file. -/
theorem sEigenvalue_cache_misassignment :
    LookupElementSEigenvalue initialState fsSEig "H" =
      ({ initialState with ElementSEigenvalues := some [] }, [],
       Except.error PyError.typeError)
  ∧ LookupElementSEigenvalue { initialState with ElementEigenvalues := some [] } fsSEig "H" =
      ({ initialState with ElementSEigenvalues := some [], ElementEigenvalues := some [("H", mkRat (-68) 5)] },
       [], Except.ok none) := by
  decide

/-- C10: if `LookupElementSEigenvalue` is called before `LookupElementEigenvalue`
has ever been called (both caches `None`), its load step raises `TypeError`
even when `Eigenvalues_s.csv` exists and is well-formed: the first parsed data
row is assigned into the eigenvalue cache variable, which is still `None`. -/
theorem sEigenvalue_typeError_before_eigenvalue_load
    (σ : DLState) (fs : FS) (sym : String) (hdr row : List String)
    (rest : List (List String)) (k : String) (v : Rat)
    (hse : σ.ElementSEigenvalues = none) (he : σ.ElementEigenvalues = none)
    (hfs : fs.eigenvaluesSCsv = some (hdr :: row :: rest))
    (hrow : parseEigRow row = Except.ok (k, v)) :
    LookupElementSEigenvalue σ fs sym =
      ({ σ with ElementSEigenvalues := some [] }, [], Except.error PyError.typeError) := by
  rw [sEigFresh σ fs sym hse, hfs]
  simp only []
  rw [he]
  have hloop : sEigLoopNoneCache (row :: rest) = Except.error PyError.typeError := by
    show (match parseEigRow row with
          | Except.error e => Except.error e
          | Except.ok a => Except.error PyError.typeError) = Except.error PyError.typeError
    rw [hrow]
  rw [hloop]

/-- C10 witness: the concrete scenario of `fsSEig` on a fresh state. -/
theorem sEigenvalue_typeError_before_eigenvalue_load_witness :
    LookupElementSEigenvalue initialState fsSEig "H" =
      ({ initialState with ElementSEigenvalues := some [] }, [],
       Except.error PyError.typeError) :=
  sEigenvalue_typeError_before_eigenvalue_load initialState fsSEig "H"
    ["Element", "eig"] ["H", "-13.6"] [] "H" (mkRat (-68) 5) rfl rfl rfl (by decide)

/-- C2 counterexample: a failed first load does NOT leave the cache
uninitialised, and a later lookup does NOT attempt the load again.  With
`oxidation_states.txt` missing, the first call raises `IOError` but the cache
is the empty dict afterwards, and the second call (file still missing) raises
nothing: it returns the not-found `None` from the retained empty cache. -/
theorem failed_load_cache_retained_cex :
    (LookupElementOxidationStates initialState emptyFS "Fe" true).2.2
        = Except.error PyError.ioError
  ∧ ((LookupElementOxidationStates initialState emptyFS "Fe" true).1).ElementOxidationStates
        = some []
  ∧ LookupElementOxidationStates
        (LookupElementOxidationStates initialState emptyFS "Fe" true).1 emptyFS "Fe" true
      = ((LookupElementOxidationStates initialState emptyFS "Fe" true).1, [],
         Except.ok none) := by
  decide

/-- C2 (amended): for every dataset, if the load triggered by the first
lookup fails, the error propagates to that first caller, but the cache does
NOT remain uninitialised: it is left holding the dict built so far (empty if
the file would not open), so a subsequent lookup does not attempt the load
again — it reads the retained cache and raises nothing. -/
theorem failed_load_error_propagates_cache_initialized :
    (∀ (σ : DLState) (fs : FS) (sym : String) (c : Bool) (e : PyError),
      σ.ElementOxidationStates = none →
      (LookupElementOxidationStates σ fs sym c).2.2 = Except.error e →
      ((LookupElementOxidationStates σ fs sym c).1).ElementOxidationStates.isSome = true
      ∧ ∀ fs₂ sym₂ c₂, ∃ w v,
          LookupElementOxidationStates (LookupElementOxidationStates σ fs sym c).1 fs₂ sym₂ c₂
            = ((LookupElementOxidationStates σ fs sym c).1, w, Except.ok v))
  ∧ (∀ (σ : DLState) (fs : FS) (sym : String) (e : PyError),
      σ.ElementCrustalAbundances = none →
      (LookupElementCrustalAbundance σ fs sym).2.2 = Except.error e →
      ((LookupElementCrustalAbundance σ fs sym).1).ElementCrustalAbundances.isSome = true
      ∧ ∀ fs₂ sym₂, ∃ w v,
          LookupElementCrustalAbundance (LookupElementCrustalAbundance σ fs sym).1 fs₂ sym₂
            = ((LookupElementCrustalAbundance σ fs sym).1, w, Except.ok v))
  ∧ (∀ (σ : DLState) (fs : FS) (sym : String) (e : PyError),
      σ.ElementHHIs = none →
      (LookupElementHHIs σ fs sym).2.2 = Except.error e →
      ((LookupElementHHIs σ fs sym).1).ElementHHIs.isSome = true
      ∧ ∀ fs₂ sym₂, ∃ w v,
          LookupElementHHIs (LookupElementHHIs σ fs sym).1 fs₂ sym₂
            = ((LookupElementHHIs σ fs sym).1, w, Except.ok v))
  ∧ (∀ (σ : DLState) (fs : FS) (sym : String) (c : Bool) (e : PyError),
      σ.ElementOpenBabelDerivedData = none →
      (LookupElementOpenBabelDerivedData σ fs sym c).2.2 = Except.error e →
      ((LookupElementOpenBabelDerivedData σ fs sym c).1).ElementOpenBabelDerivedData.isSome
          = true
      ∧ ∀ fs₂ sym₂ c₂, ∃ w v,
          LookupElementOpenBabelDerivedData
              (LookupElementOpenBabelDerivedData σ fs sym c).1 fs₂ sym₂ c₂
            = ((LookupElementOpenBabelDerivedData σ fs sym c).1, w, Except.ok v))
  ∧ (∀ (σ : DLState) (fs : FS) (sym : String) (e : PyError),
      σ.ElementEigenvalues = none →
      (LookupElementEigenvalue σ fs sym).2.2 = Except.error e →
      ((LookupElementEigenvalue σ fs sym).1).ElementEigenvalues.isSome = true
      ∧ ∀ fs₂ sym₂, ∃ w v,
          LookupElementEigenvalue (LookupElementEigenvalue σ fs sym).1 fs₂ sym₂
            = ((LookupElementEigenvalue σ fs sym).1, w, Except.ok v))
  ∧ (∀ (σ : DLState) (fs : FS) (sym : String) (e : PyError),
      σ.ElementSEigenvalues = none →
      (LookupElementSEigenvalue σ fs sym).2.2 = Except.error e →
      ((LookupElementSEigenvalue σ fs sym).1).ElementSEigenvalues.isSome = true
      ∧ ∀ fs₂ sym₂, ∃ w v,
          LookupElementSEigenvalue (LookupElementSEigenvalue σ fs sym).1 fs₂ sym₂
            = ((LookupElementSEigenvalue σ fs sym).1, w, Except.ok v))
  ∧ (∀ (σ : DLState) (fs : FS) (sym : String) (c : Bool) (e : PyError),
      σ.ElementShannonRadiiData = none →
      (LookupElementShannonRadiusData σ fs sym c).2.2 = Except.error e →
      ((LookupElementShannonRadiusData σ fs sym c).1).ElementShannonRadiiData.isSome = true
      ∧ ∀ fs₂ sym₂ c₂, ∃ w v,
          LookupElementShannonRadiusData
              (LookupElementShannonRadiusData σ fs sym c).1 fs₂ sym₂ c₂
            = ((LookupElementShannonRadiusData σ fs sym c).1, w, Except.ok v))
  ∧ (∀ (σ : DLState) (fs : FS) (sym : String) (e : PyError),
      σ.ElementSSEData = none →
      (LookupElementSSEData σ fs sym).2.2 = Except.error e →
      ((LookupElementSSEData σ fs sym).1).ElementSSEData.isSome = true
      ∧ ∀ fs₂ sym₂, ∃ w v,
          LookupElementSSEData (LookupElementSSEData σ fs sym).1 fs₂ sym₂
            = ((LookupElementSSEData σ fs sym).1, w, Except.ok v))
  ∧ (∀ (σ : DLState) (fs : FS) (sym : String) (c : Bool) (e : PyError),
      σ.ElementSSE2015Data = none →
      (LookupElementSSE2015Data σ fs sym c).2.2 = Except.error e →
      ((LookupElementSSE2015Data σ fs sym c).1).ElementSSE2015Data.isSome = true
      ∧ ∀ fs₂ sym₂ c₂, ∃ w v,
          LookupElementSSE2015Data (LookupElementSSE2015Data σ fs sym c).1 fs₂ sym₂ c₂
            = ((LookupElementSSE2015Data σ fs sym c).1, w, Except.ok v))
  ∧ (∀ (σ : DLState) (fs : FS) (sym : String) (e : PyError),
      σ.ElementSSEPaulingData = none →
      (LookupElementSSEPaulingData σ fs sym).2.2 = Except.error e →
      ((LookupElementSSEPaulingData σ fs sym).1).ElementSSEPaulingData.isSome = true
      ∧ ∀ fs₂ sym₂, ∃ w v,
          LookupElementSSEPaulingData (LookupElementSSEPaulingData σ fs sym).1 fs₂ sym₂
            = ((LookupElementSSEPaulingData σ fs sym).1, w, Except.ok v)) := by
  refine ⟨?_, ?_, ?_, ?_, ?_, ?_, ?_, ?_, ?_, ?_⟩
  · intro σ fs sym c e h herr
    have hsome := oxFresh_isSome σ fs sym c h
    refine ⟨hsome, fun fs₂ sym₂ c₂ => ?_⟩
    obtain ⟨m, hm⟩ := Option.isSome_iff_exists.mp hsome
    obtain ⟨w, v, hw⟩ := finishLookup_ok
      ((LookupElementOxidationStates σ fs sym c).1).PrintWarnings m (oxNotFoundMsg sym₂) sym₂
    exact ⟨w, v, by rw [oxLoaded _ fs₂ sym₂ c₂ m hm, hw]⟩
  · intro σ fs sym e h herr
    have hsome := crustalFresh_isSome σ fs sym h
    refine ⟨hsome, fun fs₂ sym₂ => ?_⟩
    obtain ⟨m, hm⟩ := Option.isSome_iff_exists.mp hsome
    obtain ⟨w, v, hw⟩ := finishLookup_ok
      ((LookupElementCrustalAbundance σ fs sym).1).PrintWarnings m (crustalNotFoundMsg sym₂) sym₂
    exact ⟨w, v, by rw [crustalLoaded _ fs₂ sym₂ m hm, hw]⟩
  · intro σ fs sym e h herr
    have hsome := hhiFresh_isSome σ fs sym h
    refine ⟨hsome, fun fs₂ sym₂ => ?_⟩
    obtain ⟨m, hm⟩ := Option.isSome_iff_exists.mp hsome
    obtain ⟨w, v, hw⟩ := finishLookup_ok
      ((LookupElementHHIs σ fs sym).1).PrintWarnings m (hhiNotFoundMsg sym₂) sym₂
    exact ⟨w, v, by rw [hhiLoaded _ fs₂ sym₂ m hm, hw]⟩
  · intro σ fs sym c e h herr
    have hsome := obFresh_isSome σ fs sym c h
    refine ⟨hsome, fun fs₂ sym₂ c₂ => ?_⟩
    obtain ⟨m, hm⟩ := Option.isSome_iff_exists.mp hsome
    obtain ⟨w, v, hw⟩ := finishLookup_ok
      ((LookupElementOpenBabelDerivedData σ fs sym c).1).PrintWarnings m (obNotFoundMsg sym₂) sym₂
    exact ⟨w, v, by rw [obLoaded _ fs₂ sym₂ c₂ m hm, hw]⟩
  · intro σ fs sym e h herr
    have hsome := eigFresh_isSome σ fs sym h
    refine ⟨hsome, fun fs₂ sym₂ => ?_⟩
    obtain ⟨m, hm⟩ := Option.isSome_iff_exists.mp hsome
    obtain ⟨w, v, hw⟩ := finishLookup_ok
      ((LookupElementEigenvalue σ fs sym).1).PrintWarnings m (eigNotFoundMsg sym₂) sym₂
    exact ⟨w, v, by rw [eigLoaded _ fs₂ sym₂ m hm, hw]⟩
  · intro σ fs sym e h herr
    have hsome := sEigFresh_isSome σ fs sym h
    refine ⟨hsome, fun fs₂ sym₂ => ?_⟩
    obtain ⟨m, hm⟩ := Option.isSome_iff_exists.mp hsome
    obtain ⟨w, v, hw⟩ := finishLookup_ok
      ((LookupElementSEigenvalue σ fs sym).1).PrintWarnings m (sEigNotFoundMsg sym₂) sym₂
    exact ⟨w, v, by rw [sEigLoaded _ fs₂ sym₂ m hm, hw]⟩
  · intro σ fs sym c e h herr
    have hsome := shannonFresh_isSome σ fs sym c h
    refine ⟨hsome, fun fs₂ sym₂ c₂ => ?_⟩
    obtain ⟨m, hm⟩ := Option.isSome_iff_exists.mp hsome
    obtain ⟨w, v, hw⟩ := finishLookup_ok
      ((LookupElementShannonRadiusData σ fs sym c).1).PrintWarnings m
      (shannonNotFoundMsg sym₂) sym₂
    exact ⟨w, v, by rw [shannonLoaded _ fs₂ sym₂ c₂ m hm, hw]⟩
  · intro σ fs sym e h herr
    have hsome := sseFresh_isSome σ fs sym h
    refine ⟨hsome, fun fs₂ sym₂ => ?_⟩
    obtain ⟨m, hm⟩ := Option.isSome_iff_exists.mp hsome
    obtain ⟨w, v, hw⟩ := finishLookup_ok
      ((LookupElementSSEData σ fs sym).1).PrintWarnings m (sseNotFoundMsg sym₂) sym₂
    exact ⟨w, v, by rw [sseLoaded _ fs₂ sym₂ m hm, hw]⟩
  · intro σ fs sym c e h herr
    have hsome := sse2015Fresh_isSome σ fs sym c h
    refine ⟨hsome, fun fs₂ sym₂ c₂ => ?_⟩
    obtain ⟨m, hm⟩ := Option.isSome_iff_exists.mp hsome
    obtain ⟨w, v, hw⟩ := finishLookup_ok
      ((LookupElementSSE2015Data σ fs sym c).1).PrintWarnings m (sse2015NotFoundMsg sym₂) sym₂
    exact ⟨w, v, by rw [sse2015Loaded _ fs₂ sym₂ c₂ m hm, hw]⟩
  · intro σ fs sym e h herr
    have hsome := ssePaulingFresh_isSome σ fs sym h
    refine ⟨hsome, fun fs₂ sym₂ => ?_⟩
    obtain ⟨m, hm⟩ := Option.isSome_iff_exists.mp hsome
    obtain ⟨w, v, hw⟩ := finishLookup_ok
      ((LookupElementSSEPaulingData σ fs sym).1).PrintWarnings m (ssePaulingNotFoundMsg sym₂) sym₂
    exact ⟨w, v, by rw [ssePaulingLoaded _ fs₂ sym₂ m hm, hw]⟩

/-- C2 witness: the oxidation-state dataset on a missing file — the first
call fails with IOError, the cache is initialised, and a second call returns
without error. -/
theorem failed_load_error_propagates_cache_initialized_witness :
    ((LookupElementOxidationStates initialState emptyFS "Fe" true).1).ElementOxidationStates.isSome
        = true
    ∧ ∃ w v,
        LookupElementOxidationStates
            (LookupElementOxidationStates initialState emptyFS "Fe" true).1 emptyFS "Xx" false
          = ((LookupElementOxidationStates initialState emptyFS "Fe" true).1, w,
             Except.ok v) := by
  have h := failed_load_error_propagates_cache_initialized.1 initialState emptyFS "Fe" true
    PyError.ioError rfl (by decide)
  exact ⟨h.1, h.2 emptyFS "Xx" false⟩

/-- C3 counterexample: enabling warnings after the Open Babel dataset is
loaded does NOT cause sentinel-value warnings on later lookups.  `fsOB`'s one
line has the `1.6` covalent-radius sentinel; it is loaded with warnings off;
warnings are then enabled; a later lookup of the loaded symbol returns the
sentinel-carrying record but prints nothing. -/
theorem toggle_after_load_no_sentinel_cex :
    (ToggleWarnings (LookupElementOpenBabelDerivedData initialState fsOB "X" true).1
        true).PrintWarnings = true
  ∧ LookupElementOpenBabelDerivedData
        (ToggleWarnings (LookupElementOpenBabelDerivedData initialState fsOB "X" true).1 true)
        fsOB "X" true
      = (ToggleWarnings (LookupElementOpenBabelDerivedData initialState fsOB "X" true).1 true,
         [], Except.ok (some obRecX))
  ∧ obRecX.RCov = mkRat 8 5 := by
  decide

/-- C3 (amended): the warning setter takes effect immediately for all
subsequent not-found checks, in every dataset, regardless of load state;
sentinel-value checks, however, run only inside the one-time load of the Open
Babel dataset, so they are governed by the flag at load time, and on a loaded
dataset a lookup of a present symbol prints nothing even with warnings on. -/
theorem toggle_warnings_immediate_for_notfound :
    (∀ (σ : DLState) (b : Bool), (ToggleWarnings σ b).PrintWarnings = b)
  ∧ (∀ (σ : DLState) (b : Bool) (fs : FS) (sym : String) (c : Bool) (m : PyDict (List Int)),
      σ.ElementOxidationStates = some m → dictGet m sym = none →
      LookupElementOxidationStates (ToggleWarnings σ b) fs sym c
        = (ToggleWarnings σ b, (if b then [oxNotFoundMsg sym] else []), Except.ok none))
  ∧ (∀ (σ : DLState) (b : Bool) (fs : FS) (sym : String) (m : PyDict Rat),
      σ.ElementCrustalAbundances = some m → dictGet m sym = none →
      LookupElementCrustalAbundance (ToggleWarnings σ b) fs sym
        = (ToggleWarnings σ b, (if b then [crustalNotFoundMsg sym] else []), Except.ok none))
  ∧ (∀ (σ : DLState) (b : Bool) (fs : FS) (sym : String) (m : PyDict (Rat × Rat)),
      σ.ElementHHIs = some m → dictGet m sym = none →
      LookupElementHHIs (ToggleWarnings σ b) fs sym
        = (ToggleWarnings σ b, (if b then [hhiNotFoundMsg sym] else []), Except.ok none))
  ∧ (∀ (σ : DLState) (b : Bool) (fs : FS) (sym : String) (c : Bool) (m : PyDict OBRecord),
      σ.ElementOpenBabelDerivedData = some m → dictGet m sym = none →
      LookupElementOpenBabelDerivedData (ToggleWarnings σ b) fs sym c
        = (ToggleWarnings σ b, (if b then [obNotFoundMsg sym] else []), Except.ok none))
  ∧ (∀ (σ : DLState) (b : Bool) (fs : FS) (sym : String) (m : PyDict Rat),
      σ.ElementEigenvalues = some m → dictGet m sym = none →
      LookupElementEigenvalue (ToggleWarnings σ b) fs sym
        = (ToggleWarnings σ b, (if b then [eigNotFoundMsg sym] else []), Except.ok none))
  ∧ (∀ (σ : DLState) (b : Bool) (fs : FS) (sym : String) (m : PyDict Rat),
      σ.ElementSEigenvalues = some m → dictGet m sym = none →
      LookupElementSEigenvalue (ToggleWarnings σ b) fs sym
        = (ToggleWarnings σ b, (if b then [sEigNotFoundMsg sym] else []), Except.ok none))
  ∧ (∀ (σ : DLState) (b : Bool) (fs : FS) (sym : String) (c : Bool)
        (m : PyDict (List ShannonRecord)),
      σ.ElementShannonRadiiData = some m → dictGet m sym = none →
      LookupElementShannonRadiusData (ToggleWarnings σ b) fs sym c
        = (ToggleWarnings σ b, (if b then [shannonNotFoundMsg sym] else []), Except.ok none))
  ∧ (∀ (σ : DLState) (b : Bool) (fs : FS) (sym : String) (m : PyDict SSERecord),
      σ.ElementSSEData = some m → dictGet m sym = none →
      LookupElementSSEData (ToggleWarnings σ b) fs sym
        = (ToggleWarnings σ b, (if b then [sseNotFoundMsg sym] else []), Except.ok none))
  ∧ (∀ (σ : DLState) (b : Bool) (fs : FS) (sym : String) (c : Bool)
        (m : PyDict (List SSE2015Record)),
      σ.ElementSSE2015Data = some m → dictGet m sym = none →
      LookupElementSSE2015Data (ToggleWarnings σ b) fs sym c
        = (ToggleWarnings σ b, (if b then [sse2015NotFoundMsg sym] else []), Except.ok none))
  ∧ (∀ (σ : DLState) (b : Bool) (fs : FS) (sym : String) (m : PyDict SSEPaulingRecord),
      σ.ElementSSEPaulingData = some m → dictGet m sym = none →
      LookupElementSSEPaulingData (ToggleWarnings σ b) fs sym
        = (ToggleWarnings σ b, (if b then [ssePaulingNotFoundMsg sym] else []), Except.ok none))
  ∧ (∀ (σ : DLState) (fs : FS) (sym : String) (c : Bool) (m : PyDict OBRecord) (r : OBRecord),
      σ.ElementOpenBabelDerivedData = some m → dictGet m sym = some r →
      LookupElementOpenBabelDerivedData (ToggleWarnings σ true) fs sym c
        = (ToggleWarnings σ true, [], Except.ok (some r))) := by
  refine ⟨fun σ b => rfl, ?_, ?_, ?_, ?_, ?_, ?_, ?_, ?_, ?_, ?_, ?_⟩
  · intro σ b fs sym c m hm hd
    rw [oxLoaded (ToggleWarnings σ b) fs sym c m hm, finishLookup_none _ _ _ _ hd]
    rfl
  · intro σ b fs sym m hm hd
    rw [crustalLoaded (ToggleWarnings σ b) fs sym m hm, finishLookup_none _ _ _ _ hd]
    rfl
  · intro σ b fs sym m hm hd
    rw [hhiLoaded (ToggleWarnings σ b) fs sym m hm, finishLookup_none _ _ _ _ hd]
    rfl
  · intro σ b fs sym c m hm hd
    rw [obLoaded (ToggleWarnings σ b) fs sym c m hm, finishLookup_none _ _ _ _ hd]
    rfl
  · intro σ b fs sym m hm hd
    rw [eigLoaded (ToggleWarnings σ b) fs sym m hm, finishLookup_none _ _ _ _ hd]
    rfl
  · intro σ b fs sym m hm hd
    rw [sEigLoaded (ToggleWarnings σ b) fs sym m hm, finishLookup_none _ _ _ _ hd]
    rfl
  · intro σ b fs sym c m hm hd
    rw [shannonLoaded (ToggleWarnings σ b) fs sym c m hm, finishLookup_none _ _ _ _ hd]
    rfl
  · intro σ b fs sym m hm hd
    rw [sseLoaded (ToggleWarnings σ b) fs sym m hm, finishLookup_none _ _ _ _ hd]
    rfl
  · intro σ b fs sym c m hm hd
    rw [sse2015Loaded (ToggleWarnings σ b) fs sym c m hm, finishLookup_none _ _ _ _ hd]
    rfl
  · intro σ b fs sym m hm hd
    rw [ssePaulingLoaded (ToggleWarnings σ b) fs sym m hm, finishLookup_none _ _ _ _ hd]
    rfl
  · intro σ fs sym c m r hm hd
    rw [obLoaded (ToggleWarnings σ true) fs sym c m hm, finishLookup_some _ _ _ _ _ hd]

/-- C3 witness: enabling warnings on a state whose oxidation-state cache is
already loaded immediately yields the not-found warning on the next lookup. -/
theorem toggle_warnings_immediate_for_notfound_witness :
    LookupElementOxidationStates (ToggleWarnings oxLoadedState true) emptyFS "Xx" true
      = (ToggleWarnings oxLoadedState true, [oxNotFoundMsg "Xx"], Except.ok none) := by
  have h := toggle_warnings_immediate_for_notfound.2.1 oxLoadedState true emptyFS "Xx" true
    [("Fe", [2, 3, 6])] rfl (by decide)
  simpa using h

/-- C4: for every dataset and every symbol absent from the backing file, the
lookup returns the not-found sentinel (`Except.ok none`) and raises nothing;
the result value does not depend on the warning flag — only the printed
output `warnOut σ.PrintWarnings …` does.  Each dataset contributes two parts:
the first call (cache `None`, file loads successfully, symbol not among the
file's symbols) and any call on an already-loaded cache lacking the symbol. -/
theorem absent_symbol_returns_none_never_raises :
    ((∀ (σ : DLState) (fs : FS) (sym : String) (c : Bool) (lines : List String)
        (m : PyDict (List Int)) (u : Unit),
      σ.ElementOxidationStates = none → fs.oxidationStatesTxt = some lines →
      runLoad singleStep parseOxLine lines [] = (m, Except.ok u) →
      sym ∉ rowSymbols parseOxLine lines →
      LookupElementOxidationStates σ fs sym c
        = ({ σ with ElementOxidationStates := some m },
           warnOut σ.PrintWarnings (oxNotFoundMsg sym), Except.ok none))
    ∧ (∀ (σ : DLState) (fs : FS) (sym : String) (c : Bool) (m : PyDict (List Int)),
      σ.ElementOxidationStates = some m → dictGet m sym = none →
      LookupElementOxidationStates σ fs sym c
        = (σ, warnOut σ.PrintWarnings (oxNotFoundMsg sym), Except.ok none)))
  ∧ ((∀ (σ : DLState) (fs : FS) (sym : String) (lines : List String)
        (m : PyDict Rat) (u : Unit),
      σ.ElementCrustalAbundances = none → fs.crustalAbundanceTxt = some lines →
      runLoad singleStep parseCrustalLine lines [] = (m, Except.ok u) →
      sym ∉ rowSymbols parseCrustalLine lines →
      LookupElementCrustalAbundance σ fs sym
        = ({ σ with ElementCrustalAbundances := some m },
           warnOut σ.PrintWarnings (crustalNotFoundMsg sym), Except.ok none))
    ∧ (∀ (σ : DLState) (fs : FS) (sym : String) (m : PyDict Rat),
      σ.ElementCrustalAbundances = some m → dictGet m sym = none →
      LookupElementCrustalAbundance σ fs sym
        = (σ, warnOut σ.PrintWarnings (crustalNotFoundMsg sym), Except.ok none)))
  ∧ ((∀ (σ : DLState) (fs : FS) (sym : String) (lines : List String)
        (m : PyDict (Rat × Rat)) (u : Unit),
      σ.ElementHHIs = none → fs.hhisTxt = some lines →
      runLoad singleStep parseHHILine lines [] = (m, Except.ok u) →
      sym ∉ rowSymbols parseHHILine lines →
      LookupElementHHIs σ fs sym
        = ({ σ with ElementHHIs := some m },
           warnOut σ.PrintWarnings (hhiNotFoundMsg sym), Except.ok none))
    ∧ (∀ (σ : DLState) (fs : FS) (sym : String) (m : PyDict (Rat × Rat)),
      σ.ElementHHIs = some m → dictGet m sym = none →
      LookupElementHHIs σ fs sym
        = (σ, warnOut σ.PrintWarnings (hhiNotFoundMsg sym), Except.ok none)))
  ∧ ((∀ (σ : DLState) (fs : FS) (sym : String) (c : Bool) (lines : List String)
        (m : PyDict OBRecord) (out : List String) (u : Unit),
      σ.ElementOpenBabelDerivedData = none → fs.elementTxt = some lines →
      runLoadOB σ.PrintWarnings lines [] = (m, out, Except.ok u) →
      sym ∉ rowSymbols (parseOBLine σ.PrintWarnings) lines →
      LookupElementOpenBabelDerivedData σ fs sym c
        = ({ σ with ElementOpenBabelDerivedData := some m },
           out ++ warnOut σ.PrintWarnings (obNotFoundMsg sym), Except.ok none))
    ∧ (∀ (σ : DLState) (fs : FS) (sym : String) (c : Bool) (m : PyDict OBRecord),
      σ.ElementOpenBabelDerivedData = some m → dictGet m sym = none →
      LookupElementOpenBabelDerivedData σ fs sym c
        = (σ, warnOut σ.PrintWarnings (obNotFoundMsg sym), Except.ok none)))
  ∧ ((∀ (σ : DLState) (fs : FS) (sym : String) (hdr : List String)
        (dataRows : List (List String)) (m : PyDict Rat) (u : Unit),
      σ.ElementEigenvalues = none → fs.eigenvaluesCsv = some (hdr :: dataRows) →
      runLoad singleStep (csvRow parseEigRow) dataRows [] = (m, Except.ok u) →
      sym ∉ rowSymbols (csvRow parseEigRow) dataRows →
      LookupElementEigenvalue σ fs sym
        = ({ σ with ElementEigenvalues := some m },
           warnOut σ.PrintWarnings (eigNotFoundMsg sym), Except.ok none))
    ∧ (∀ (σ : DLState) (fs : FS) (sym : String) (m : PyDict Rat),
      σ.ElementEigenvalues = some m → dictGet m sym = none →
      LookupElementEigenvalue σ fs sym
        = (σ, warnOut σ.PrintWarnings (eigNotFoundMsg sym), Except.ok none)))
  ∧ ((∀ (σ : DLState) (fs : FS) (sym : String) (hdr : List String)
        (dataRows : List (List String)) (em m : PyDict Rat) (u : Unit),
      σ.ElementSEigenvalues = none → σ.ElementEigenvalues = some em →
      fs.eigenvaluesSCsv = some (hdr :: dataRows) →
      runLoad singleStep (csvRow parseEigRow) dataRows em = (m, Except.ok u) →
      LookupElementSEigenvalue σ fs sym
        = ({ σ with ElementSEigenvalues := some [], ElementEigenvalues := some m },
           warnOut σ.PrintWarnings (sEigNotFoundMsg sym), Except.ok none))
    ∧ (∀ (σ : DLState) (fs : FS) (sym : String) (m : PyDict Rat),
      σ.ElementSEigenvalues = some m → dictGet m sym = none →
      LookupElementSEigenvalue σ fs sym
        = (σ, warnOut σ.PrintWarnings (sEigNotFoundMsg sym), Except.ok none)))
  ∧ ((∀ (σ : DLState) (fs : FS) (sym : String) (c : Bool) (hdr : List String)
        (dataRows : List (List String)) (m : PyDict (List ShannonRecord)) (u : Unit),
      σ.ElementShannonRadiiData = none → fs.shannonRadiiCsv = some (hdr :: dataRows) →
      runLoad multiStep (csvRow parseShannonRow) dataRows [] = (m, Except.ok u) →
      sym ∉ rowSymbols (csvRow parseShannonRow) dataRows →
      LookupElementShannonRadiusData σ fs sym c
        = ({ σ with ElementShannonRadiiData := some m },
           warnOut σ.PrintWarnings (shannonNotFoundMsg sym), Except.ok none))
    ∧ (∀ (σ : DLState) (fs : FS) (sym : String) (c : Bool) (m : PyDict (List ShannonRecord)),
      σ.ElementShannonRadiiData = some m → dictGet m sym = none →
      LookupElementShannonRadiusData σ fs sym c
        = (σ, warnOut σ.PrintWarnings (shannonNotFoundMsg sym), Except.ok none)))
  ∧ ((∀ (σ : DLState) (fs : FS) (sym : String) (rows : List (List String))
        (m : PyDict SSERecord) (u : Unit),
      σ.ElementSSEData = none → fs.sseCsv = some rows →
      runLoad singleStep (csvRow parseSSERow) rows [] = (m, Except.ok u) →
      sym ∉ rowSymbols (csvRow parseSSERow) rows →
      LookupElementSSEData σ fs sym
        = ({ σ with ElementSSEData := some m },
           warnOut σ.PrintWarnings (sseNotFoundMsg sym), Except.ok none))
    ∧ (∀ (σ : DLState) (fs : FS) (sym : String) (m : PyDict SSERecord),
      σ.ElementSSEData = some m → dictGet m sym = none →
      LookupElementSSEData σ fs sym
        = (σ, warnOut σ.PrintWarnings (sseNotFoundMsg sym), Except.ok none)))
  ∧ ((∀ (σ : DLState) (fs : FS) (sym : String) (c : Bool) (rows : List (List String))
        (m : PyDict (List SSE2015Record)) (u : Unit),
      σ.ElementSSE2015Data = none → fs.sse2015Csv = some rows →
      runLoad multiStep (csvRow parseSSE2015Row) rows [] = (m, Except.ok u) →
      sym ∉ rowSymbols (csvRow parseSSE2015Row) rows →
      LookupElementSSE2015Data σ fs sym c
        = ({ σ with ElementSSE2015Data := some m },
           warnOut σ.PrintWarnings (sse2015NotFoundMsg sym), Except.ok none))
    ∧ (∀ (σ : DLState) (fs : FS) (sym : String) (c : Bool) (m : PyDict (List SSE2015Record)),
      σ.ElementSSE2015Data = some m → dictGet m sym = none →
      LookupElementSSE2015Data σ fs sym c
        = (σ, warnOut σ.PrintWarnings (sse2015NotFoundMsg sym), Except.ok none)))
  ∧ ((∀ (σ : DLState) (fs : FS) (sym : String) (rows : List (List String))
        (m : PyDict SSEPaulingRecord) (u : Unit),
      σ.ElementSSEPaulingData = none → fs.ssePaulingCsv = some rows →
      runLoad singleStep (csvRow parseSSEPaulingRow) rows [] = (m, Except.ok u) →
      sym ∉ rowSymbols (csvRow parseSSEPaulingRow) rows →
      LookupElementSSEPaulingData σ fs sym
        = ({ σ with ElementSSEPaulingData := some m },
           warnOut σ.PrintWarnings (ssePaulingNotFoundMsg sym), Except.ok none))
    ∧ (∀ (σ : DLState) (fs : FS) (sym : String) (m : PyDict SSEPaulingRecord),
      σ.ElementSSEPaulingData = some m → dictGet m sym = none →
      LookupElementSSEPaulingData σ fs sym
        = (σ, warnOut σ.PrintWarnings (ssePaulingNotFoundMsg sym), Except.ok none))) := by
  have hsingle : ∀ {β : Type} (d : PyDict β) (k : String) (v : β) (s : String), k ≠ s →
      dictGet (singleStep d k v) s = dictGet d s :=
    fun d k v s hk => dictGet_dictSet_ne d k s v hk
  have hmulti : ∀ {ρ : Type} (d : PyDict (List ρ)) (k : String) (v : ρ) (s : String), k ≠ s →
      dictGet (multiStep d k v) s = dictGet d s :=
    fun d k v s hk => multiStep_dictGet_ne d k s v hk
  refine ⟨⟨?_, ?_⟩, ⟨?_, ?_⟩, ⟨?_, ?_⟩, ⟨?_, ?_⟩, ⟨?_, ?_⟩, ⟨?_, ?_⟩, ⟨?_, ?_⟩,
    ⟨?_, ?_⟩, ⟨?_, ?_⟩, ⟨?_, ?_⟩⟩
  · intro σ fs sym c lines m u h hfs hload habs
    have hdg : dictGet m sym = none := by
      have hkeep := runLoad_dictGet_of_not_assigned singleStep parseOxLine sym
        (fun d k v hk => hsingle d k v sym hk) lines [] habs
      rw [hload] at hkeep
      simpa [dictGet] using hkeep
    rw [oxFresh σ fs sym c h, hfs]
    simp only [hload]
    rw [finishLookup_none _ _ _ _ hdg]
  · intro σ fs sym c m hm hd
    rw [oxLoaded σ fs sym c m hm, finishLookup_none _ _ _ _ hd]
  · intro σ fs sym lines m u h hfs hload habs
    have hdg : dictGet m sym = none := by
      have hkeep := runLoad_dictGet_of_not_assigned singleStep parseCrustalLine sym
        (fun d k v hk => hsingle d k v sym hk) lines [] habs
      rw [hload] at hkeep
      simpa [dictGet] using hkeep
    rw [crustalFresh σ fs sym h, hfs]
    simp only [hload]
    rw [finishLookup_none _ _ _ _ hdg]
  · intro σ fs sym m hm hd
    rw [crustalLoaded σ fs sym m hm, finishLookup_none _ _ _ _ hd]
  · intro σ fs sym lines m u h hfs hload habs
    have hdg : dictGet m sym = none := by
      have hkeep := runLoad_dictGet_of_not_assigned singleStep parseHHILine sym
        (fun d k v hk => hsingle d k v sym hk) lines [] habs
      rw [hload] at hkeep
      simpa [dictGet] using hkeep
    rw [hhiFresh σ fs sym h, hfs]
    simp only [hload]
    rw [finishLookup_none _ _ _ _ hdg]
  · intro σ fs sym m hm hd
    rw [hhiLoaded σ fs sym m hm, finishLookup_none _ _ _ _ hd]
  · intro σ fs sym c lines m out u h hfs hload habs
    have hdg : dictGet m sym = none := by
      have hkeep := runLoadOB_dictGet_of_not_assigned σ.PrintWarnings sym lines [] habs
      rw [hload] at hkeep
      simpa [dictGet] using hkeep
    rw [obFresh σ fs sym c h, hfs]
    simp only [hload]
    rw [finishLookup_none _ _ _ _ hdg]
  · intro σ fs sym c m hm hd
    rw [obLoaded σ fs sym c m hm, finishLookup_none _ _ _ _ hd]
  · intro σ fs sym hdr dataRows m u h hfs hload habs
    have hdg : dictGet m sym = none := by
      have hkeep := runLoad_dictGet_of_not_assigned singleStep (csvRow parseEigRow) sym
        (fun d k v hk => hsingle d k v sym hk) dataRows [] habs
      rw [hload] at hkeep
      simpa [dictGet] using hkeep
    rw [eigFresh σ fs sym h, hfs]
    simp only [hload]
    rw [finishLookup_none _ _ _ _ hdg]
  · intro σ fs sym m hm hd
    rw [eigLoaded σ fs sym m hm, finishLookup_none _ _ _ _ hd]
  · intro σ fs sym hdr dataRows em m u h he hfs hload
    rw [sEigFresh σ fs sym h, hfs]
    simp only [he, hload]
    rw [finishLookup_none _ _ _ _ (by rfl : dictGet ([] : PyDict Rat) sym = none)]
  · intro σ fs sym m hm hd
    rw [sEigLoaded σ fs sym m hm, finishLookup_none _ _ _ _ hd]
  · intro σ fs sym c hdr dataRows m u h hfs hload habs
    have hdg : dictGet m sym = none := by
      have hkeep := runLoad_dictGet_of_not_assigned multiStep (csvRow parseShannonRow) sym
        (fun d k v hk => hmulti d k v sym hk) dataRows [] habs
      rw [hload] at hkeep
      simpa [dictGet] using hkeep
    rw [shannonFresh σ fs sym c h, hfs]
    simp only [hload]
    rw [finishLookup_none _ _ _ _ hdg]
  · intro σ fs sym c m hm hd
    rw [shannonLoaded σ fs sym c m hm, finishLookup_none _ _ _ _ hd]
  · intro σ fs sym rows m u h hfs hload habs
    have hdg : dictGet m sym = none := by
      have hkeep := runLoad_dictGet_of_not_assigned singleStep (csvRow parseSSERow) sym
        (fun d k v hk => hsingle d k v sym hk) rows [] habs
      rw [hload] at hkeep
      simpa [dictGet] using hkeep
    rw [sseFresh σ fs sym h, hfs]
    simp only [hload]
    rw [finishLookup_none _ _ _ _ hdg]
  · intro σ fs sym m hm hd
    rw [sseLoaded σ fs sym m hm, finishLookup_none _ _ _ _ hd]
  · intro σ fs sym c rows m u h hfs hload habs
    have hdg : dictGet m sym = none := by
      have hkeep := runLoad_dictGet_of_not_assigned multiStep (csvRow parseSSE2015Row) sym
        (fun d k v hk => hmulti d k v sym hk) rows [] habs
      rw [hload] at hkeep
      simpa [dictGet] using hkeep
    rw [sse2015Fresh σ fs sym c h, hfs]
    simp only [hload]
    rw [finishLookup_none _ _ _ _ hdg]
  · intro σ fs sym c m hm hd
    rw [sse2015Loaded σ fs sym c m hm, finishLookup_none _ _ _ _ hd]
  · intro σ fs sym rows m u h hfs hload habs
    have hdg : dictGet m sym = none := by
      have hkeep := runLoad_dictGet_of_not_assigned singleStep (csvRow parseSSEPaulingRow) sym
        (fun d k v hk => hsingle d k v sym hk) rows [] habs
      rw [hload] at hkeep
      simpa [dictGet] using hkeep
    rw [ssePaulingFresh σ fs sym h, hfs]
    simp only [hload]
    rw [finishLookup_none _ _ _ _ hdg]
  · intro σ fs sym m hm hd
    rw [ssePaulingLoaded σ fs sym m hm, finishLookup_none _ _ _ _ hd]

/-- C4 witness: symbol `Xx` absent from `fsOxFe` returns the not-found
sentinel with no exception and, warnings being off, no output. -/
theorem absent_symbol_returns_none_never_raises_witness :
    LookupElementOxidationStates initialState fsOxFe "Xx" true
      = ({ initialState with ElementOxidationStates := some [("Fe", [2, 3, 6])] },
         [], Except.ok none) := by
  have h := absent_symbol_returns_none_never_raises.1.1 initialState fsOxFe "Xx" true
    ["# comment", "Fe 2 3 6"] [("Fe", [2, 3, 6])] () rfl rfl (by decide) (by decide)
  simpa [warnOut, initialState] using h

/-- C5: for every dataset the backing file is opened and parsed at most once:
on a loaded cache a lookup is independent of the file system (the file is
never reopened) and leaves the whole state unchanged, and the first call
(cache `None`) always leaves the cache initialised, so no later call can take
the loading branch again. -/
theorem backing_file_read_at_most_once :
    ((∀ (σ : DLState) (fs fs₂ : FS) (sym : String) (c : Bool) (m : PyDict (List Int)),
        σ.ElementOxidationStates = some m →
        LookupElementOxidationStates σ fs sym c = LookupElementOxidationStates σ fs₂ sym c
        ∧ (LookupElementOxidationStates σ fs sym c).1 = σ)
    ∧ (∀ (σ : DLState) (fs : FS) (sym : String) (c : Bool),
        σ.ElementOxidationStates = none →
        ((LookupElementOxidationStates σ fs sym c).1).ElementOxidationStates.isSome = true))
  ∧ ((∀ (σ : DLState) (fs fs₂ : FS) (sym : String) (m : PyDict Rat),
        σ.ElementCrustalAbundances = some m →
        LookupElementCrustalAbundance σ fs sym = LookupElementCrustalAbundance σ fs₂ sym
        ∧ (LookupElementCrustalAbundance σ fs sym).1 = σ)
    ∧ (∀ (σ : DLState) (fs : FS) (sym : String),
        σ.ElementCrustalAbundances = none →
        ((LookupElementCrustalAbundance σ fs sym).1).ElementCrustalAbundances.isSome = true))
  ∧ ((∀ (σ : DLState) (fs fs₂ : FS) (sym : String) (m : PyDict (Rat × Rat)),
        σ.ElementHHIs = some m →
        LookupElementHHIs σ fs sym = LookupElementHHIs σ fs₂ sym
        ∧ (LookupElementHHIs σ fs sym).1 = σ)
    ∧ (∀ (σ : DLState) (fs : FS) (sym : String),
        σ.ElementHHIs = none →
        ((LookupElementHHIs σ fs sym).1).ElementHHIs.isSome = true))
  ∧ ((∀ (σ : DLState) (fs fs₂ : FS) (sym : String) (c : Bool) (m : PyDict OBRecord),
        σ.ElementOpenBabelDerivedData = some m →
        LookupElementOpenBabelDerivedData σ fs sym c
          = LookupElementOpenBabelDerivedData σ fs₂ sym c
        ∧ (LookupElementOpenBabelDerivedData σ fs sym c).1 = σ)
    ∧ (∀ (σ : DLState) (fs : FS) (sym : String) (c : Bool),
        σ.ElementOpenBabelDerivedData = none →
        ((LookupElementOpenBabelDerivedData σ fs sym c).1).ElementOpenBabelDerivedData.isSome
          = true))
  ∧ ((∀ (σ : DLState) (fs fs₂ : FS) (sym : String) (m : PyDict Rat),
        σ.ElementEigenvalues = some m →
        LookupElementEigenvalue σ fs sym = LookupElementEigenvalue σ fs₂ sym
        ∧ (LookupElementEigenvalue σ fs sym).1 = σ)
    ∧ (∀ (σ : DLState) (fs : FS) (sym : String),
        σ.ElementEigenvalues = none →
        ((LookupElementEigenvalue σ fs sym).1).ElementEigenvalues.isSome = true))
  ∧ ((∀ (σ : DLState) (fs fs₂ : FS) (sym : String) (m : PyDict Rat),
        σ.ElementSEigenvalues = some m →
        LookupElementSEigenvalue σ fs sym = LookupElementSEigenvalue σ fs₂ sym
        ∧ (LookupElementSEigenvalue σ fs sym).1 = σ)
    ∧ (∀ (σ : DLState) (fs : FS) (sym : String),
        σ.ElementSEigenvalues = none →
        ((LookupElementSEigenvalue σ fs sym).1).ElementSEigenvalues.isSome = true))
  ∧ ((∀ (σ : DLState) (fs fs₂ : FS) (sym : String) (c : Bool)
        (m : PyDict (List ShannonRecord)),
        σ.ElementShannonRadiiData = some m →
        LookupElementShannonRadiusData σ fs sym c
          = LookupElementShannonRadiusData σ fs₂ sym c
        ∧ (LookupElementShannonRadiusData σ fs sym c).1 = σ)
    ∧ (∀ (σ : DLState) (fs : FS) (sym : String) (c : Bool),
        σ.ElementShannonRadiiData = none →
        ((LookupElementShannonRadiusData σ fs sym c).1).ElementShannonRadiiData.isSome = true))
  ∧ ((∀ (σ : DLState) (fs fs₂ : FS) (sym : String) (m : PyDict SSERecord),
        σ.ElementSSEData = some m →
        LookupElementSSEData σ fs sym = LookupElementSSEData σ fs₂ sym
        ∧ (LookupElementSSEData σ fs sym).1 = σ)
    ∧ (∀ (σ : DLState) (fs : FS) (sym : String),
        σ.ElementSSEData = none →
        ((LookupElementSSEData σ fs sym).1).ElementSSEData.isSome = true))
  ∧ ((∀ (σ : DLState) (fs fs₂ : FS) (sym : String) (c : Bool)
        (m : PyDict (List SSE2015Record)),
        σ.ElementSSE2015Data = some m →
        LookupElementSSE2015Data σ fs sym c = LookupElementSSE2015Data σ fs₂ sym c
        ∧ (LookupElementSSE2015Data σ fs sym c).1 = σ)
    ∧ (∀ (σ : DLState) (fs : FS) (sym : String) (c : Bool),
        σ.ElementSSE2015Data = none →
        ((LookupElementSSE2015Data σ fs sym c).1).ElementSSE2015Data.isSome = true))
  ∧ ((∀ (σ : DLState) (fs fs₂ : FS) (sym : String) (m : PyDict SSEPaulingRecord),
        σ.ElementSSEPaulingData = some m →
        LookupElementSSEPaulingData σ fs sym = LookupElementSSEPaulingData σ fs₂ sym
        ∧ (LookupElementSSEPaulingData σ fs sym).1 = σ)
    ∧ (∀ (σ : DLState) (fs : FS) (sym : String),
        σ.ElementSSEPaulingData = none →
        ((LookupElementSSEPaulingData σ fs sym).1).ElementSSEPaulingData.isSome = true)) := by
  refine ⟨⟨?_, ?_⟩, ⟨?_, ?_⟩, ⟨?_, ?_⟩, ⟨?_, ?_⟩, ⟨?_, ?_⟩, ⟨?_, ?_⟩, ⟨?_, ?_⟩,
    ⟨?_, ?_⟩, ⟨?_, ?_⟩, ⟨?_, ?_⟩⟩
  · intro σ fs fs₂ sym c m hm
    exact ⟨by rw [oxLoaded σ fs sym c m hm, oxLoaded σ fs₂ sym c m hm],
      by rw [oxLoaded σ fs sym c m hm]⟩
  · exact oxFresh_isSome
  · intro σ fs fs₂ sym m hm
    exact ⟨by rw [crustalLoaded σ fs sym m hm, crustalLoaded σ fs₂ sym m hm],
      by rw [crustalLoaded σ fs sym m hm]⟩
  · exact crustalFresh_isSome
  · intro σ fs fs₂ sym m hm
    exact ⟨by rw [hhiLoaded σ fs sym m hm, hhiLoaded σ fs₂ sym m hm],
      by rw [hhiLoaded σ fs sym m hm]⟩
  · exact hhiFresh_isSome
  · intro σ fs fs₂ sym c m hm
    exact ⟨by rw [obLoaded σ fs sym c m hm, obLoaded σ fs₂ sym c m hm],
      by rw [obLoaded σ fs sym c m hm]⟩
  · exact obFresh_isSome
  · intro σ fs fs₂ sym m hm
    exact ⟨by rw [eigLoaded σ fs sym m hm, eigLoaded σ fs₂ sym m hm],
      by rw [eigLoaded σ fs sym m hm]⟩
  · exact eigFresh_isSome
  · intro σ fs fs₂ sym m hm
    exact ⟨by rw [sEigLoaded σ fs sym m hm, sEigLoaded σ fs₂ sym m hm],
      by rw [sEigLoaded σ fs sym m hm]⟩
  · exact sEigFresh_isSome
  · intro σ fs fs₂ sym c m hm
    exact ⟨by rw [shannonLoaded σ fs sym c m hm, shannonLoaded σ fs₂ sym c m hm],
      by rw [shannonLoaded σ fs sym c m hm]⟩
  · exact shannonFresh_isSome
  · intro σ fs fs₂ sym m hm
    exact ⟨by rw [sseLoaded σ fs sym m hm, sseLoaded σ fs₂ sym m hm],
      by rw [sseLoaded σ fs sym m hm]⟩
  · exact sseFresh_isSome
  · intro σ fs fs₂ sym c m hm
    exact ⟨by rw [sse2015Loaded σ fs sym c m hm, sse2015Loaded σ fs₂ sym c m hm],
      by rw [sse2015Loaded σ fs sym c m hm]⟩
  · exact sse2015Fresh_isSome
  · intro σ fs fs₂ sym m hm
    exact ⟨by rw [ssePaulingLoaded σ fs sym m hm, ssePaulingLoaded σ fs₂ sym m hm],
      by rw [ssePaulingLoaded σ fs sym m hm]⟩
  · exact ssePaulingFresh_isSome

/-- C5 witness: on a loaded oxidation-state cache, the lookup result is the
same whether the backing file is present or missing, and the state does not
change; a first call on the fresh state initialises the cache. -/
theorem backing_file_read_at_most_once_witness :
    (LookupElementOxidationStates oxLoadedState fsOxFe "Fe" true
      = LookupElementOxidationStates oxLoadedState emptyFS "Fe" true
    ∧ (LookupElementOxidationStates oxLoadedState fsOxFe "Fe" true).1 = oxLoadedState)
    ∧ ((LookupElementOxidationStates initialState fsOxFe "Fe" true).1).ElementOxidationStates.isSome
        = true := by
  exact ⟨backing_file_read_at_most_once.1.1 oxLoadedState fsOxFe emptyFS "Fe" true
      [("Fe", [2, 3, 6])] rfl,
    backing_file_read_at_most_once.1.2 initialState fsOxFe "Fe" true rfl⟩

/-- C6: for the multi-record datasets (Shannon radii and SSE-2015) and every
symbol with at least one row, the list the first lookup returns is exactly
`recordsFor … sym`: one record per backing-file row carrying that symbol, in
file order. -/
theorem multirecord_lists_preserve_file_order :
    (∀ (σ : DLState) (fs : FS) (sym : String) (c : Bool) (hdr : List String)
        (dataRows : List (List String)) (m : PyDict (List ShannonRecord)) (u : Unit),
      σ.ElementShannonRadiiData = none → fs.shannonRadiiCsv = some (hdr :: dataRows) →
      runLoad multiStep (csvRow parseShannonRow) dataRows [] = (m, Except.ok u) →
      recordsFor (csvRow parseShannonRow) dataRows sym ≠ [] →
      LookupElementShannonRadiusData σ fs sym c
        = ({ σ with ElementShannonRadiiData := some m }, [],
           Except.ok (some (recordsFor (csvRow parseShannonRow) dataRows sym))))
  ∧ (∀ (σ : DLState) (fs : FS) (sym : String) (c : Bool) (rows : List (List String))
        (m : PyDict (List SSE2015Record)) (u : Unit),
      σ.ElementSSE2015Data = none → fs.sse2015Csv = some rows →
      runLoad multiStep (csvRow parseSSE2015Row) rows [] = (m, Except.ok u) →
      recordsFor (csvRow parseSSE2015Row) rows sym ≠ [] →
      LookupElementSSE2015Data σ fs sym c
        = ({ σ with ElementSSE2015Data := some m }, [],
           Except.ok (some (recordsFor (csvRow parseSSE2015Row) rows sym)))) := by
  constructor
  · intro σ fs sym c hdr dataRows m u h hfs hload hne
    have hdg : dictGet m sym = some (recordsFor (csvRow parseShannonRow) dataRows sym) := by
      have hmd := runLoad_multi_dictGet (csvRow parseShannonRow) sym dataRows [] m u hload
      rw [hmd]
      exact combineRecords_none_of_ne _ hne
    rw [shannonFresh σ fs sym c h, hfs]
    simp only [hload]
    rw [finishLookup_some _ _ _ _ _ hdg]
  · intro σ fs sym c rows m u h hfs hload hne
    have hdg : dictGet m sym = some (recordsFor (csvRow parseSSE2015Row) rows sym) := by
      have hmd := runLoad_multi_dictGet (csvRow parseSSE2015Row) sym rows [] m u hload
      rw [hmd]
      exact combineRecords_none_of_ne _ hne
    rw [sse2015Fresh σ fs sym c h, hfs]
    simp only [hload]
    rw [finishLookup_some _ _ _ _ _ hdg]

/-- C6 witness: `fsTi` holds two SSE-2015 rows for titanium with oxidation
states 2 then 4; the lookup returns a two-element list whose `OxidationState`
values are `[2, 4]` in that order. -/
theorem multirecord_lists_preserve_file_order_witness :
    (LookupElementSSE2015Data initialState fsTi "Ti" true).2.2
      = Except.ok (some [⟨2, 1⟩, ⟨4, 2⟩])
    ∧ ([(⟨2, 1⟩ : SSE2015Record), ⟨4, 2⟩].map SSE2015Record.OxidationState) = [2, 4] := by
  have h := multirecord_lists_preserve_file_order.2 initialState fsTi "Ti" true
    [["Ti", "2", "1.0"], ["Ti", "4", "2.0"]] [("Ti", [⟨2, 1⟩, ⟨4, 2⟩])] ()
    rfl rfl (by decide) (by decide)
  refine ⟨?_, by decide⟩
  rw [h]
  decide

/-- C9: with the warning policy enabled, when the first Open Babel lookup
succeeds for a symbol whose record carries a sentinel value (covalent radius
`1.6`, or Pauling electronegativity, ionisation potential or electron
affinity `0.0`), the call's printed output contains the warning naming that
element and field, and the record is stored and returned with the parsed
value unchanged. -/
theorem sentinel_warning_named_and_value_kept
    (σ : DLState) (fs : FS) (sym : String) (c : Bool) (lines : List String)
    (σ₂ : DLState) (out : List String) (r : OBRecord)
    (hpw : σ.PrintWarnings = true)
    (hob : σ.ElementOpenBabelDerivedData = none)
    (hfs : fs.elementTxt = some lines)
    (hcall : LookupElementOpenBabelDerivedData σ fs sym c = (σ₂, out, Except.ok (some r))) :
    (∃ m, σ₂.ElementOpenBabelDerivedData = some m ∧ dictGet m sym = some r)
    ∧ (r.RCov = mkRat 8 5 → obRCovMsg sym ∈ out)
    ∧ (r.ElNeg = 0 → obElNegMsg sym ∈ out)
    ∧ (r.Ionization = 0 → obIonizationMsg sym ∈ out)
    ∧ (r.ElAffinity = 0 → obElAffinityMsg sym ∈ out) := by
  rw [obFresh σ fs sym c hob, hfs] at hcall
  simp only [] at hcall
  cases hrl : runLoadOB σ.PrintWarnings lines [] with
  | mk m t =>
      cases t with
      | mk lout res =>
          rw [hrl] at hcall
          cases res with
          | error e => exact absurd hcall (by simp)
          | ok u =>
              simp only [] at hcall
              cases hdg : dictGet m sym with
              | none =>
                  rw [finishLookup_none _ _ _ _ hdg] at hcall
                  exact absurd hcall (by simp)
              | some v =>
                  rw [finishLookup_some _ _ _ _ _ hdg] at hcall
                  simp only [Prod.mk.injEq, Except.ok.injEq, Option.some.injEq,
                    List.append_nil] at hcall
                  obtain ⟨hσ, hout, hv⟩ := hcall
                  subst hv
                  have hmem := runLoadOB_warning_mem σ.PrintWarnings lines [] sym v
                    (by rw [hrl]; exact hdg)
                  rcases hmem with habs | hws
                  · exact absurd habs (by simp [dictGet])
                  · rw [hrl] at hws
                    simp only [] at hws
                    refine ⟨⟨m, by rw [← hσ], hdg⟩, ?_, ?_, ?_, ?_⟩
                    · intro hc
                      refine hout ▸ hws _ ?_
                      rw [hpw]
                      simp [obWarnings, hc]
                    · intro hc
                      refine hout ▸ hws _ ?_
                      rw [hpw]
                      simp [obWarnings, hc]
                    · intro hc
                      refine hout ▸ hws _ ?_
                      rw [hpw]
                      simp [obWarnings, hc]
                    · intro hc
                      refine hout ▸ hws _ ?_
                      rw [hpw]
                      simp [obWarnings, hc]

/-- C9 witness: the one-line file `fsOB` (covalent radius field `1.6`), with
warnings enabled from the start, prints the covalent-radius sentinel warning
naming the element and still returns `RCov = 1.6` in the record. -/
theorem sentinel_warning_named_and_value_kept_witness :
    obRCovMsg "X" ∈ (LookupElementOpenBabelDerivedData (ToggleWarnings initialState true)
        fsOB "X" true).2.1
    ∧ obRecX.RCov = mkRat 8 5 := by
  have h := sentinel_warning_named_and_value_kept (ToggleWarnings initialState true) fsOB
    "X" true [obLine] obLoadedState [obRCovMsg "X"] obRecX rfl rfl rfl (by decide)
  refine ⟨?_, by decide⟩
  have h₂ := h.2.1 (by decide)
  rw [show (LookupElementOpenBabelDerivedData (ToggleWarnings initialState true)
      fsOB "X" true).2.1 = [obRCovMsg "X"] from by decide]
  exact h₂

/-- C7: for each list- or record-valued dataset (oxidation states, Open Babel
records, Shannon radii, SSE-2015) and every symbol present in the loaded
cache, two `copy=True` calls return containers at two fresh addresses —
distinct from the cached object's address and from each other — holding the
cached value; for the two-level datasets every record cell of the copies is
fresh as well.  Consequently, any heap that differs from the original only at
or past the original's size (which is where all returned containers live, so
any mutation of a returned container produces such a heap) leaves the result
value of every later lookup unchanged. -/
theorem copy_true_returns_fresh_equal_containers :
    (∀ (pw : Bool) (cache : PyDict Nat) (h : List (List Int)) (sym : String) (a : Nat)
        (t₁ t₂ : List (List Int) × List String × Option Nat),
      dictGet cache sym = some a → a < h.length →
      LookupElementOxidationStatesRef pw cache h sym true = t₁ →
      LookupElementOxidationStatesRef pw cache t₁.1 sym true = t₂ →
      t₁.2.2 = some h.length ∧ t₂.2.2 = some (h.length + 1)
      ∧ a ≠ h.length ∧ a ≠ h.length + 1
      ∧ (t₂.1)[h.length]? = h[a]? ∧ (t₂.1)[h.length + 1]? = h[a]?
      ∧ ∀ h₃ : List (List Int), (∀ i, i < h.length → h₃[i]? = h[i]?) →
          ∀ (sym₂ : String) (b : Nat) (c : Bool), dictGet cache sym₂ = some b →
            b < h.length →
            refValue (LookupElementOxidationStatesRef pw cache h₃ sym₂ c).1
              (LookupElementOxidationStatesRef pw cache h₃ sym₂ c).2.2 = h[b]?)
  ∧ (∀ (pw : Bool) (cache : PyDict Nat) (h : List OBRecord) (sym : String) (a : Nat)
        (t₁ t₂ : List OBRecord × List String × Option Nat),
      dictGet cache sym = some a → a < h.length →
      LookupElementOpenBabelDerivedDataRef pw cache h sym true = t₁ →
      LookupElementOpenBabelDerivedDataRef pw cache t₁.1 sym true = t₂ →
      t₁.2.2 = some h.length ∧ t₂.2.2 = some (h.length + 1)
      ∧ a ≠ h.length ∧ a ≠ h.length + 1
      ∧ (t₂.1)[h.length]? = h[a]? ∧ (t₂.1)[h.length + 1]? = h[a]?
      ∧ ∀ h₃ : List OBRecord, (∀ i, i < h.length → h₃[i]? = h[i]?) →
          ∀ (sym₂ : String) (b : Nat) (c : Bool), dictGet cache sym₂ = some b →
            b < h.length →
            refValue (LookupElementOpenBabelDerivedDataRef pw cache h₃ sym₂ c).1
              (LookupElementOpenBabelDerivedDataRef pw cache h₃ sym₂ c).2.2 = h[b]?)
  ∧ (∀ (pw : Bool) (cache : PyDict Nat) (dh : List ShannonRecord) (lh : List (List Nat))
        (sym : String) (a : Nat)
        (t₁ t₂ : (List ShannonRecord × List (List Nat)) × List String × Option Nat),
      dictGet cache sym = some a → a < lh.length →
      (∀ d ∈ lh.getD a [], d < dh.length) →
      LookupElementShannonRadiusDataRef pw cache dh lh sym true = t₁ →
      LookupElementShannonRadiusDataRef pw cache t₁.1.1 t₁.1.2 sym true = t₂ →
      t₁.2.2 = some lh.length ∧ t₂.2.2 = some (lh.length + 1)
      ∧ a ≠ lh.length ∧ a ≠ lh.length + 1
      ∧ listRefValue shannonDefaultRecord t₂.1.1 t₂.1.2 (some lh.length)
          = listRefValue shannonDefaultRecord dh lh (some a)
      ∧ listRefValue shannonDefaultRecord t₂.1.1 t₂.1.2 (some (lh.length + 1))
          = listRefValue shannonDefaultRecord dh lh (some a)
      ∧ (∀ addrs₁, (t₂.1.2)[lh.length]? = some addrs₁ → ∀ d ∈ addrs₁, dh.length ≤ d)
      ∧ (∀ addrs₂, (t₂.1.2)[lh.length + 1]? = some addrs₂ → ∀ d ∈ addrs₂, dh.length ≤ d)
      ∧ ∀ (dh₃ : List ShannonRecord) (lh₃ : List (List Nat)),
          (∀ i, i < dh.length → dh₃[i]? = dh[i]?) →
          (∀ j, j < lh.length → lh₃[j]? = lh[j]?) →
          ∀ (sym₂ : String) (b : Nat) (c : Bool), dictGet cache sym₂ = some b →
            b < lh.length → (∀ d ∈ lh.getD b [], d < dh.length) →
            listRefValue shannonDefaultRecord
                (LookupElementShannonRadiusDataRef pw cache dh₃ lh₃ sym₂ c).1.1
                (LookupElementShannonRadiusDataRef pw cache dh₃ lh₃ sym₂ c).1.2
                (LookupElementShannonRadiusDataRef pw cache dh₃ lh₃ sym₂ c).2.2
              = listRefValue shannonDefaultRecord dh lh (some b))
  ∧ (∀ (pw : Bool) (cache : PyDict Nat) (dh : List SSE2015Record) (lh : List (List Nat))
        (sym : String) (a : Nat)
        (t₁ t₂ : (List SSE2015Record × List (List Nat)) × List String × Option Nat),
      dictGet cache sym = some a → a < lh.length →
      (∀ d ∈ lh.getD a [], d < dh.length) →
      LookupElementSSE2015DataRef pw cache dh lh sym true = t₁ →
      LookupElementSSE2015DataRef pw cache t₁.1.1 t₁.1.2 sym true = t₂ →
      t₁.2.2 = some lh.length ∧ t₂.2.2 = some (lh.length + 1)
      ∧ a ≠ lh.length ∧ a ≠ lh.length + 1
      ∧ listRefValue sse2015DefaultRecord t₂.1.1 t₂.1.2 (some lh.length)
          = listRefValue sse2015DefaultRecord dh lh (some a)
      ∧ listRefValue sse2015DefaultRecord t₂.1.1 t₂.1.2 (some (lh.length + 1))
          = listRefValue sse2015DefaultRecord dh lh (some a)
      ∧ (∀ addrs₁, (t₂.1.2)[lh.length]? = some addrs₁ → ∀ d ∈ addrs₁, dh.length ≤ d)
      ∧ (∀ addrs₂, (t₂.1.2)[lh.length + 1]? = some addrs₂ → ∀ d ∈ addrs₂, dh.length ≤ d)
      ∧ ∀ (dh₃ : List SSE2015Record) (lh₃ : List (List Nat)),
          (∀ i, i < dh.length → dh₃[i]? = dh[i]?) →
          (∀ j, j < lh.length → lh₃[j]? = lh[j]?) →
          ∀ (sym₂ : String) (b : Nat) (c : Bool), dictGet cache sym₂ = some b →
            b < lh.length → (∀ d ∈ lh.getD b [], d < dh.length) →
            listRefValue sse2015DefaultRecord
                (LookupElementSSE2015DataRef pw cache dh₃ lh₃ sym₂ c).1.1
                (LookupElementSSE2015DataRef pw cache dh₃ lh₃ sym₂ c).1.2
                (LookupElementSSE2015DataRef pw cache dh₃ lh₃ sym₂ c).2.2
              = listRefValue sse2015DefaultRecord dh lh (some b)) := by
  refine ⟨?_, ?_, ?_, ?_⟩
  · intro pw cache h sym a t₁ t₂ hc ha ht₁ ht₂
    subst ht₁
    subst ht₂
    exact flatCopyTrueSpec oxNotFoundMsg pw cache h [] sym a hc ha
  · intro pw cache h sym a t₁ t₂ hc ha ht₁ ht₂
    subst ht₁
    subst ht₂
    exact flatCopyTrueSpec obNotFoundMsg pw cache h obDefaultRecord sym a hc ha
  · intro pw cache dh lh sym a t₁ t₂ hc ha hwf ht₁ ht₂
    exact twoLevelCopyTrueSpec shannonNotFoundMsg pw cache dh lh shannonDefaultRecord
      sym a hc ha hwf t₁ t₂ ht₁ ht₂
  · intro pw cache dh lh sym a t₁ t₂ hc ha hwf ht₁ ht₂
    exact twoLevelCopyTrueSpec sse2015NotFoundMsg pw cache dh lh sse2015DefaultRecord
      sym a hc ha hwf t₁ t₂ ht₁ ht₂

/-- C7 witness: a one-element oxidation-state heap: the two copies land at
fresh addresses 1 and 2, distinct from the cached address 0, with the cached
value. -/
theorem copy_true_returns_fresh_equal_containers_witness :
    (LookupElementOxidationStatesRef false [("Fe", 0)]
        ([[2, 3, 6]] : List (List Int)) "Fe" true).2.2 = some 1
    ∧ (LookupElementOxidationStatesRef false [("Fe", 0)]
        (LookupElementOxidationStatesRef false [("Fe", 0)]
          ([[2, 3, 6]] : List (List Int)) "Fe" true).1 "Fe" true).2.2 = some 2
    ∧ ((LookupElementOxidationStatesRef false [("Fe", 0)]
        (LookupElementOxidationStatesRef false [("Fe", 0)]
          ([[2, 3, 6]] : List (List Int)) "Fe" true).1 "Fe" true).1)[1]?
      = ([[2, 3, 6]] : List (List Int))[0]? := by
  have h := copy_true_returns_fresh_equal_containers.1 false [("Fe", 0)]
    ([[2, 3, 6]] : List (List Int)) "Fe" 0 _ _ (by decide) (by decide) rfl rfl
  exact ⟨h.1, h.2.1, h.2.2.2.2.1⟩

/-- C8: for each list- or record-valued dataset and every symbol present in
the loaded cache, `copy=False` returns the identical cached object — the
cached address itself, heap untouched — on every repeated call. -/
theorem copy_false_returns_cached_object :
    (∀ (pw : Bool) (cache : PyDict Nat) (h : List (List Int)) (sym : String) (a : Nat),
      dictGet cache sym = some a →
      LookupElementOxidationStatesRef pw cache h sym false = (h, [], some a)
      ∧ LookupElementOxidationStatesRef pw cache
          (LookupElementOxidationStatesRef pw cache h sym false).1 sym false
        = (h, [], some a))
  ∧ (∀ (pw : Bool) (cache : PyDict Nat) (h : List OBRecord) (sym : String) (a : Nat),
      dictGet cache sym = some a →
      LookupElementOpenBabelDerivedDataRef pw cache h sym false = (h, [], some a)
      ∧ LookupElementOpenBabelDerivedDataRef pw cache
          (LookupElementOpenBabelDerivedDataRef pw cache h sym false).1 sym false
        = (h, [], some a))
  ∧ (∀ (pw : Bool) (cache : PyDict Nat) (dh : List ShannonRecord) (lh : List (List Nat))
        (sym : String) (a : Nat),
      dictGet cache sym = some a →
      LookupElementShannonRadiusDataRef pw cache dh lh sym false = ((dh, lh), [], some a)
      ∧ LookupElementShannonRadiusDataRef pw cache
          (LookupElementShannonRadiusDataRef pw cache dh lh sym false).1.1
          (LookupElementShannonRadiusDataRef pw cache dh lh sym false).1.2 sym false
        = ((dh, lh), [], some a))
  ∧ (∀ (pw : Bool) (cache : PyDict Nat) (dh : List SSE2015Record) (lh : List (List Nat))
        (sym : String) (a : Nat),
      dictGet cache sym = some a →
      LookupElementSSE2015DataRef pw cache dh lh sym false = ((dh, lh), [], some a)
      ∧ LookupElementSSE2015DataRef pw cache
          (LookupElementSSE2015DataRef pw cache dh lh sym false).1.1
          (LookupElementSSE2015DataRef pw cache dh lh sym false).1.2 sym false
        = ((dh, lh), [], some a)) := by
  refine ⟨?_, ?_, ?_, ?_⟩
  · intro pw cache h sym a hc
    have e : LookupElementOxidationStatesRef pw cache h sym false = (h, [], some a) :=
      flatRef_copy_false oxNotFoundMsg pw cache h [] sym a hc
    exact ⟨e, by rw [e]; exact e⟩
  · intro pw cache h sym a hc
    have e : LookupElementOpenBabelDerivedDataRef pw cache h sym false = (h, [], some a) :=
      flatRef_copy_false obNotFoundMsg pw cache h obDefaultRecord sym a hc
    exact ⟨e, by rw [e]; exact e⟩
  · intro pw cache dh lh sym a hc
    have e : LookupElementShannonRadiusDataRef pw cache dh lh sym false
        = ((dh, lh), [], some a) :=
      twoLevel_copy_false shannonNotFoundMsg pw cache dh lh shannonDefaultRecord sym a hc
    exact ⟨e, by rw [e]; exact e⟩
  · intro pw cache dh lh sym a hc
    have e : LookupElementSSE2015DataRef pw cache dh lh sym false = ((dh, lh), [], some a) :=
      twoLevel_copy_false sse2015NotFoundMsg pw cache dh lh sse2015DefaultRecord sym a hc
    exact ⟨e, by rw [e]; exact e⟩

/-- C8 witness: with the cached iron list at address 0, `copy=False` returns
address 0 twice and leaves the heap alone. -/
theorem copy_false_returns_cached_object_witness :
    LookupElementOxidationStatesRef false [("Fe", 0)]
        ([[2, 3, 6]] : List (List Int)) "Fe" false
      = (([[2, 3, 6]] : List (List Int)), [], some 0)
    ∧ LookupElementOxidationStatesRef false [("Fe", 0)]
        (LookupElementOxidationStatesRef false [("Fe", 0)]
          ([[2, 3, 6]] : List (List Int)) "Fe" false).1 "Fe" false
      = (([[2, 3, 6]] : List (List Int)), [], some 0) := by
  exact copy_false_returns_cached_object.1 false [("Fe", 0)]
    ([[2, 3, 6]] : List (List Int)) "Fe" 0 (by decide)

end Smact
